import Mathlib

/-!
Verification of the audio-splitter pipeline reconciliation engine.

The Python sources shell out to an external sound server (`pactl`) and parse
its flat text output.  We embed the text-processing and pipeline-lifecycle
logic shallowly: Python `str` values are modelled as `List Char` (written
`Str` below), so that every operation the sources perform on strings
(substring test, `split`, `splitlines`, `strip`, `startswith`, indexing of
whitespace-separated fields) is an executable Lean function with the same
semantics.  External processes are modelled by explicit state / response
oracles, and every external call a function issues is recorded in a trace.
-/

set_option maxRecDepth 40000

/-- Python `str` is modelled as a list of characters. -/
abbrev Str := List Char

/-- Embed a Lean string literal as a `Str`. -/
def strLit (s : String) : Str := s.toList

/-- Python's substring test `pat in hay` (case-sensitive). -/
def strContains (hay pat : Str) : Bool := decide (pat <:+: hay)

/-- Split on every occurrence of a single character, keeping empty segments
(Python `s.split(c)` semantics). -/
def splitOnChar (c : Char) : Str → List Str
  | [] => [[]]
  | x :: rest =>
    match splitOnChar c rest with
    | [] => [[x]]
    | h :: t => if x = c then [] :: h :: t else (x :: h) :: t

/-- Helper for `splitOnSeq`: scan for the separator, accumulating the current
segment in reverse. -/
def splitSeqGo (s0 : Char) (st : Str) : Str → Str → List Str
  | [], acc => [acc.reverse]
  | c :: rest, acc =>
    if (s0 :: st).isPrefixOf (c :: rest) then
      acc.reverse :: splitSeqGo s0 st (List.drop st.length rest) []
    else
      splitSeqGo s0 st rest (c :: acc)
termination_by x _ => x.length
decreasing_by
  · simp only [List.length_drop, List.length_cons]; omega
  · simp only [List.length_cons]; omega

/-- Python `s.split(sep)` for a non-empty separator string (leftmost,
non-overlapping). -/
def splitOnSeq (sep : Str) (s : Str) : List Str :=
  match sep with
  | [] => [s]
  | s0 :: st => splitSeqGo s0 st s []

/-- Python `s.splitlines()` (restricted to `\n` line breaks, which is the only
break the modelled `pactl` output contains): split on newlines, with no final
empty line for input ending in a newline, and `[]` for empty input. -/
def pylines (s : Str) : List Str :=
  if s.isEmpty then []
  else
    match splitOnChar '\n' s with
    | [] => []
    | ps =>
      if ps.getLast? = some [] then ps.dropLast else ps

/-- Python `s.strip()`. -/
def trimL (s : Str) : Str :=
  ((s.dropWhile Char.isWhitespace).reverse.dropWhile Char.isWhitespace).reverse

/-- Python `s.split()` with no argument: whitespace-separated fields, empty
fields dropped. -/
def fieldsOf (s : Str) : List Str :=
  (splitOnChar ' ' (s.map (fun c => if c.isWhitespace then ' ' else c))).filter
    (fun f => ¬ f.isEmpty)

/-- Everything after the first occurrence of `c` (`s.split(c, 1)[1]` in
Python); `[]` when `c` does not occur. -/
def afterChar (c : Char) : Str → Str
  | [] => []
  | x :: rest => if x = c then rest else afterChar c rest

/-- The segment between the first and second occurrence of `c`
(`s.split(c)[1]` in Python); everything after the first occurrence when there
is no second one. -/
def betweenChar (c : Char) (s : Str) : Str :=
  (afterChar c s).takeWhile (fun x => x ≠ c)

/-- Decimal digit characters. -/
def digitChars : Str := strLit "0123456789"

/-- The decimal digit character for `d % 10`. -/
def digitChar (d : Nat) : Char :=
  match d % 10 with
  | 0 => '0' | 1 => '1' | 2 => '2' | 3 => '3' | 4 => '4'
  | 5 => '5' | 6 => '6' | 7 => '7' | 8 => '8' | _ => '9'

/-- Fuel-bounded digit rendering (structural recursion so that concrete
evaluations reduce inside the kernel); `natChars` supplies ample fuel. -/
def natCharsGo : Nat → Nat → Str
  | 0, _ => []
  | fuel + 1, n => if n < 10 then [digitChar n] else natCharsGo fuel (n / 10) ++ [digitChar n]

/-- Decimal rendering of a natural number as a `Str`. -/
def natChars (n : Nat) : Str := natCharsGo (n + 1) n

theorem digitChar_mem : ∀ d, digitChar d ∈ digitChars := by
  intro d
  have h : d % 10 < 10 := Nat.mod_lt _ (by omega)
  unfold digitChar
  interval_cases h : d % 10 <;> simp_all <;> decide

theorem natCharsGo_ne_nil (fuel n : Nat) (h : fuel ≠ 0) : natCharsGo fuel n ≠ [] := by
  cases fuel with
  | zero => exact absurd rfl h
  | succ f =>
    unfold natCharsGo
    split <;> simp

theorem natChars_ne_nil (n : Nat) : natChars n ≠ [] :=
  natCharsGo_ne_nil (n + 1) n (by omega)

theorem natCharsGo_subset_digits (fuel : Nat) :
    ∀ n, ∀ c ∈ natCharsGo fuel n, c ∈ digitChars := by
  induction fuel with
  | zero => intro n c hc; cases hc
  | succ f ih =>
    intro n c hc
    unfold natCharsGo at hc
    split at hc
    · simp at hc; subst hc; exact digitChar_mem n
    · rcases List.mem_append.1 hc with h | h
      · exact ih (n / 10) c h
      · simp at h; subst h; exact digitChar_mem n

theorem natChars_subset_digits (n : Nat) : ∀ c ∈ natChars n, c ∈ digitChars :=
  natCharsGo_subset_digits (n + 1) n

theorem strContains_iff {hay pat : Str} : strContains hay pat = true ↔ pat <:+: hay := by
  simp [strContains]

/-- If `pat` occurs inside the middle part of a three-way concatenation, the
whole concatenation contains it. -/
theorem strContains_append_mid (a m b pat : Str) (h : pat <:+: m) :
    strContains (a ++ m ++ b) pat = true := by
  rw [strContains_iff]
  exact h.trans ⟨a, b, rfl⟩

instance {e a : Type} [DecidableEq e] [DecidableEq a] : DecidableEq (Except e a) := fun x y =>
  match x, y with
  | Except.ok v, Except.ok w =>
    if h : v = w then isTrue (by rw [h]) else isFalse (by intro hh; cases hh; exact h rfl)
  | Except.error v, Except.error w =>
    if h : v = w then isTrue (by rw [h]) else isFalse (by intro hh; cases hh; exact h rfl)
  | Except.ok _, Except.error _ => isFalse (by intro hh; cases hh)
  | Except.error _, Except.ok _ => isFalse (by intro hh; cases hh)

/-! ## Channel Router math (claim C7)

`audio_splitter_gui_v2.py`, `AudioSplitterWindow.on_rear_balance_changed`
(lines 680-693), with the slider values modelled as rationals. -/

namespace V2

/-- Volume computed for the left rear device:
`left_vol = base_rear_vol * (1 - balance / 100) if balance > 0 else base_rear_vol`. -/
def rearLeftVol (base balance : ℚ) : ℚ :=
  if 0 < balance then base * (1 - balance / 100) else base

/-- Volume computed for the right rear device:
`right_vol = base_rear_vol * (1 + balance / 100) if balance < 0 else base_rear_vol`. -/
def rearRightVol (base balance : ℚ) : ℚ :=
  if balance < 0 then base * (1 + balance / 100) else base

/-- Python's `int()` truncation of the (always non-negative) computed volume
before it is passed to `pactl set-sink-volume`. -/
def sentVol (v : ℚ) : ℤ := ⌊v⌋

end V2

/-- Spec-side left-channel factor: `leftFactor = balance>0 ? 1-balance/100 : 1`. -/
def leftFactor (balance : ℚ) : ℚ := if 0 < balance then 1 - balance / 100 else 1

/-- Spec-side right-channel factor: `rightFactor = balance<0 ? 1+balance/100 : 1`. -/
def rightFactor (balance : ℚ) : ℚ := if balance < 0 then 1 + balance / 100 else 1

namespace V1

/-- `audio_splitter_gui.py`, `on_rear_balance_changed` (lines 515-523): the
factors are applied to a fixed 100% reference and the result is scaled by the
configured maximum `max_vol = 150` before being sent. -/
def rearLeftVolSent (balance : ℚ) : ℤ := ⌊(if 0 < balance then 100 * (1 - balance / 100) else 100) * 150 / 100⌋

/-- Right-channel analogue of `rearLeftVolSent`. -/
def rearRightVolSent (balance : ℚ) : ℤ := ⌊(if balance < 0 then 100 * (1 + balance / 100) else 100) * 150 / 100⌋

end V1

/-- C7: channel balance math.  The v2 handler computes exactly
`base * leftFactor` / `base * rightFactor`; within the GUI slider ranges
(base ∈ [0,150], balance ∈ [-100,100]) this already equals the value clamped
to the configured 150% maximum; at the claim's sample points the factors are
(1,1), (0.5,1) and (1,0); and the v1 handler sends the same factors applied to
the configured 150% maximum. -/
theorem C7_channel_balance_math :
    (∀ base balance : ℚ, V2.rearLeftVol base balance = base * leftFactor balance) ∧
    (∀ base balance : ℚ, V2.rearRightVol base balance = base * rightFactor balance) ∧
    (∀ base balance : ℚ, 0 ≤ base → base ≤ 150 → -100 ≤ balance → balance ≤ 100 →
      V2.rearLeftVol base balance = min (base * leftFactor balance) 150 ∧
      V2.rearRightVol base balance = min (base * rightFactor balance) 150) ∧
    (leftFactor 0 = 1 ∧ rightFactor 0 = 1) ∧
    (leftFactor 50 = 1 / 2 ∧ rightFactor 50 = 1) ∧
    (leftFactor (-100) = 1 ∧ rightFactor (-100) = 0) ∧
    (∀ balance : ℚ, V1.rearLeftVolSent balance = ⌊150 * leftFactor balance⌋ ∧
      V1.rearRightVolSent balance = ⌊150 * rightFactor balance⌋) := by
  refine ⟨?_, ?_, ?_, ?_, ?_, ?_, ?_⟩
  · intro base balance
    unfold V2.rearLeftVol leftFactor
    split <;> ring
  · intro base balance
    unfold V2.rearRightVol rightFactor
    split <;> ring
  · intro base balance h0 h150 hlo hhi
    constructor
    · unfold V2.rearLeftVol leftFactor
      split_ifs with h
      · rw [min_eq_left (by nlinarith)]
      · rw [min_eq_left (by nlinarith)]; ring
    · unfold V2.rearRightVol rightFactor
      split_ifs with h
      · rw [min_eq_left (by nlinarith)]
      · rw [min_eq_left (by nlinarith)]; ring
  · constructor <;> norm_num [leftFactor, rightFactor]
  · constructor <;> norm_num [leftFactor, rightFactor]
  · constructor <;> norm_num [leftFactor, rightFactor]
  · intro balance
    unfold V1.rearLeftVolSent V1.rearRightVolSent leftFactor rightFactor
    constructor <;> (split <;> norm_num <;> ring_nf)

/-- Witness for C7 at base = 99, balance = 50: the hypotheses of the bounded
clamping part hold and the computed volumes match. -/
theorem C7_channel_balance_math_witness :
    V2.rearLeftVol 99 50 = min (99 * leftFactor 50) 150 ∧
    V2.rearRightVol 99 50 = min (99 * rightFactor 50) 150 :=
  C7_channel_balance_math.2.2.1 99 50 (by norm_num) (by norm_num) (by norm_num) (by norm_num)

/-! ## Pattern Matcher / Module Locator (claim C4)

`audio_splitter_gui_v2.py`, `find_module_ids` (lines 226-234): the output of
`pactl list modules` is split on blank lines into per-instance descriptor
blocks; a block matches when every predicate is a substring of it; the id is
taken from the block's `Module #` line. -/

namespace V2

/-- Extract the id from a descriptor block: the text after the first `#` of
the first line whose stripped form starts with `Module #` (stripped again, as
in the source). -/
def blockIdOf (b : Str) : Option Str :=
  match (pylines b).find? (fun line => (strLit "Module #").isPrefixOf (trimL line)) with
  | none => none
  | some line => some (afterChar '#' (trimL line))

/-- The per-block loop of `find_module_ids`: collect the id of every block
that contains all the patterns. -/
def findIdsInBlocks (blocks : List Str) (patterns : List Str) : List Str :=
  blocks.filterMap
    (fun b => if patterns.all (fun p => strContains b p) then blockIdOf b else none)

/-- `find_module_ids` itself, as a function of the external query's exit code
and output text. -/
def find_module_ids (code : Int) (text : Str) (patterns : List Str) : List Str :=
  if code ≠ 0 then [] else findIdsInBlocks (splitOnSeq (strLit "\n\n") text) patterns

end V2

/-- C4: for any descriptor blocks and predicates, `find_module_ids` returns
exactly the ids of the blocks that contain every predicate as a
(case-sensitive) substring — the predicates are ANDed; the result does not
depend on the order of the predicates; and for two predicates an id is
returned exactly when its block contains both. -/
theorem C4_pattern_matcher :
    (∀ (blocks patterns : List Str) (mid : Str),
      mid ∈ V2.findIdsInBlocks blocks patterns ↔
        ∃ b ∈ blocks, (∀ p ∈ patterns, strContains b p = true) ∧ V2.blockIdOf b = some mid) ∧
    (∀ (blocks ps qs : List Str), ps.Perm qs →
      V2.findIdsInBlocks blocks ps = V2.findIdsInBlocks blocks qs) ∧
    (∀ (blocks : List Str) (p1 p2 mid : Str),
      mid ∈ V2.findIdsInBlocks blocks [p1, p2] ↔
        ∃ b ∈ blocks, strContains b p1 = true ∧ strContains b p2 = true ∧
          V2.blockIdOf b = some mid) := by
  have hmem : ∀ (blocks patterns : List Str) (mid : Str),
      mid ∈ V2.findIdsInBlocks blocks patterns ↔
        ∃ b ∈ blocks, (∀ p ∈ patterns, strContains b p = true) ∧ V2.blockIdOf b = some mid := by
    intro blocks patterns mid
    simp only [V2.findIdsInBlocks, List.mem_filterMap]
    constructor
    · rintro ⟨b, hb, hsome⟩
      by_cases hall : patterns.all (fun p => strContains b p) = true
      · rw [if_pos hall] at hsome
        exact ⟨b, hb, by simpa [List.all_eq_true] using hall, hsome⟩
      · rw [if_neg hall] at hsome
        cases hsome
    · rintro ⟨b, hb, hall, hid⟩
      refine ⟨b, hb, ?_⟩
      rw [if_pos (by simpa [List.all_eq_true] using hall)]
      exact hid
  refine ⟨hmem, ?_, ?_⟩
  · intro blocks ps qs hperm
    unfold V2.findIdsInBlocks
    apply List.filterMap_congr
    intro b _
    have : ps.all (fun p => strContains b p) = qs.all (fun p => strContains b p) := by
      rw [Bool.eq_iff_iff]
      simp only [List.all_eq_true]
      exact ⟨fun H p hp => H p (hperm.mem_iff.2 hp), fun H p hp => H p (hperm.mem_iff.1 hp)⟩
    rw [this]
  · intro blocks p1 p2 mid
    rw [hmem]
    constructor
    · rintro ⟨b, hb, hall, hid⟩
      exact ⟨b, hb, hall p1 (by simp), hall p2 (by simp), hid⟩
    · rintro ⟨b, hb, h1, h2, hid⟩
      refine ⟨b, hb, ?_, hid⟩
      intro p hp
      simp only [List.mem_cons, List.mem_singleton, List.not_mem_nil, or_false] at hp
      rcases hp with rfl | rfl
      · exact h1
      · exact h2

/-- Witness for C4: the permutation part applied at concrete blocks and a
concrete two-predicate permutation, together with a concrete membership. -/
theorem C4_pattern_matcher_witness :
    V2.findIdsInBlocks [strLit "Module #48\n  Name: module-loopback\n  Argument: source=splitter_left"]
        [strLit "module-loopback", strLit "splitter_left"] =
      V2.findIdsInBlocks [strLit "Module #48\n  Name: module-loopback\n  Argument: source=splitter_left"]
        [strLit "splitter_left", strLit "module-loopback"] ∧
    strLit "48" ∈ V2.findIdsInBlocks
        [strLit "Module #48\n  Name: module-loopback\n  Argument: source=splitter_left"]
        [strLit "module-loopback", strLit "splitter_left"] := by
  constructor
  · exact C4_pattern_matcher.2.1 _ _ _ (by decide)
  · exact (C4_pattern_matcher.2.2 _ _ _ _).2
      ⟨_, List.mem_singleton_self _, by decide, by decide, by decide⟩

/-! ## Resource Catalog failure behaviour (claim C8)

`audio_splitter_gui_v2.py`, `pactl_sinks` (lines 114-137) and
`universal_audio_detector.py`, `UniversalAudioDetector.get_available_sinks`
(lines 279-332). -/

namespace V2

/-- The sink names `pactl_sinks` excludes as internal. -/
def internalSinks : List Str := [strLit "splitter", strLit "compressor", strLit "null"]

/-- Parse one line of `pactl list short sinks` output: skip blank lines, take
the second whitespace-separated field, and drop internal sink names.  (The
source uses `split(maxsplit=2)`; only the presence of a second field and its
value are consumed, which agree with an unbounded split.) -/
def sinkLineName (line : Str) : Option Str :=
  if (trimL line).isEmpty then none
  else
    ((fieldsOf (trimL line)).get? 1).bind
      (fun p1 => if p1 ∈ internalSinks then none else some p1)

/-- `pactl_sinks` as a function of the external query's exit code and output. -/
def pactl_sinks (code : Int) (out : Str) : List Str :=
  if code ≠ 0 then [] else (pylines out).filterMap sinkLineName

end V2

namespace Det

/-- The structured sink record `get_available_sinks` builds per `Sink #`
block. -/
structure SinkRec where
  sid : Str
  name : Str
  description : Str
  driver : Str
  state : Str
  sampleSpec : Str
  channelMap : Str
  props : List (Str × Str)
deriving DecidableEq, Repr

/-- The fresh record created when a `Sink #` header line is seen. -/
def initRec (sid : Str) : SinkRec := ⟨sid, [], [], [], [], [], [], []⟩

/-- Update the current record from one (already stripped) body line, mirroring
the `elif` chain of the source. -/
def updateRec (line : Str) (r : SinkRec) : SinkRec :=
  if (strLit "Name:").isPrefixOf line then { r with name := trimL (afterChar ':' line) }
  else if (strLit "Description:").isPrefixOf line then
    { r with description := trimL (afterChar ':' line) }
  else if (strLit "Driver:").isPrefixOf line then { r with driver := trimL (afterChar ':' line) }
  else if (strLit "State:").isPrefixOf line then { r with state := trimL (afterChar ':' line) }
  else if (strLit "Sample Specification:").isPrefixOf line then
    { r with sampleSpec := trimL (afterChar ':' line) }
  else if (strLit "Channel Map:").isPrefixOf line then
    { r with channelMap := trimL (afterChar ':' line) }
  else if (strLit "device.").isPrefixOf line && strContains line (strLit "=") then
    { r with props :=
        r.props ++ [(trimL (line.takeWhile (fun c => c ≠ '=')), trimL (afterChar '=' line))] }
  else r

/-- The parsing loop over the stripped output lines, carrying the current
record. -/
def scanSinks : List Str → Option SinkRec → List SinkRec
  | [], cur => match cur with | some r => [r] | none => []
  | line :: rest, cur =>
    let l := trimL line
    if (strLit "Sink #").isPrefixOf l then
      (match cur with | some r => [r] | none => []) ++
        scanSinks rest (some (initRec (trimL (betweenChar '#' l))))
    else
      match cur with
      | some r => scanSinks rest (some (updateRec l r))
      | none => scanSinks rest none

/-- `get_available_sinks` as a function of the external query's result. -/
def get_available_sinks (code : Int) (out err : Str) : List SinkRec :=
  if code ≠ 0 then [] else scanSinks (pylines out) none

end Det

/-- C8: when the underlying `pactl` query exits non-zero, both sink catalogs
return the empty sequence (the functions are total — no exception is modelled
because none escapes the source — and each consumes exactly one query
response, so no retry is performed). -/
theorem C8_query_failure_empty :
    (∀ (code : Int) (out : Str), code ≠ 0 → V2.pactl_sinks code out = []) ∧
    (∀ (code : Int) (out err : Str), code ≠ 0 → Det.get_available_sinks code out err = []) := by
  constructor
  · intro code out h
    simp [V2.pactl_sinks, h]
  · intro code out err h
    simp [Det.get_available_sinks, h]

/-- Witness for C8 at exit code 1 with non-trivial output text. -/
theorem C8_query_failure_empty_witness :
    V2.pactl_sinks 1 (strLit "5\tsome_sink\tmodule.c") = [] ∧
    Det.get_available_sinks 1 (strLit "Sink #5\n  Name: foo") (strLit "boom") = [] :=
  ⟨C8_query_failure_empty.1 1 _ (by decide), C8_query_failure_empty.2 1 _ _ (by decide)⟩

/-! ## Tracked-state lifecycle: `universal_audio_splitter.py` (claims C2, C9)

`UniversalAudioSplitter` tracks every successfully loaded module as a
`(module_type, module_id)` pair in `pipeline_modules` and unloads the reversed
list in `stop_audio_pipeline`.  The external world is modelled by a success
oracle for the `pactl load-module` calls (the `i`-th load call returns exit
code 0 iff `w i`, with stdout — the server-assigned module id — modelled as
`natChars i`).  Unload calls never consult their result in the source
(`check=False`, wrapped in `try/except`), so the model does not consume the
oracle for them. -/

namespace Univ

/-- The tracked state of `UniversalAudioSplitter`: `pipeline_modules` and
`pipeline_active`. -/
structure UState where
  mods : List (Str × Str)
  active : Bool
deriving DecidableEq, Repr

/-- External calls issued by the tracked lifecycle, with the load result that
the caller observed. -/
inductive UCmd
  | load (mtype : Str) (ok : Bool) (idOut : Str)
  | unload (idStr : Str)
  | setDefaultSink (name : Str)
deriving DecidableEq, Repr

/-- `stop_audio_pipeline` (lines 195-212): early return when nothing is
tracked; otherwise unload the tracked modules in reverse order (ignoring
failures), clear the list and reset the flag. -/
def stop_audio_pipeline (st : UState) : UState × List UCmd :=
  if st.mods.isEmpty then (st, [])
  else (⟨[], false⟩, st.mods.reverse.map (fun tm => UCmd.unload tm.2))

/-- One creation step of `create_audio_pipeline`: its module type, and whether
a failure is tolerated (`check=False` with a fallback — only the optional
compressor step). -/
structure UStep where
  mtype : Str
  tolerated : Bool
deriving DecidableEq, Repr

/-- The creation steps of `create_audio_pipeline` in source order: splitter
sink, optional compressor, left/right channel sources, then the loopbacks the
routing selection enables (two for the front sink, one per rear sink). -/
def stepsOf (front rearL rearR : Str) : List UStep :=
  [⟨strLit "module-null-sink", false⟩, ⟨strLit "module-ladspa-sink", true⟩,
   ⟨strLit "module-remap-source", false⟩, ⟨strLit "module-remap-source", false⟩] ++
  (if front.isEmpty then []
   else [⟨strLit "module-loopback", false⟩, ⟨strLit "module-loopback", false⟩]) ++
  (if rearL.isEmpty then [] else [⟨strLit "module-loopback", false⟩]) ++
  (if rearR.isEmpty then [] else [⟨strLit "module-loopback", false⟩])

/-- Run the creation steps: a successful load is tracked; a tolerated failure
is skipped; a required failure triggers the `except` handler, which invokes
`stop_audio_pipeline` to roll back and returns `False`.  On success the
default sink is set and `pipeline_active` becomes `True`. -/
def runSteps (w : Nat → Bool) :
    List UStep → Nat → UState → List UCmd → UState × Bool × List UCmd
  | [], _, st, tr =>
    ({ st with active := true }, true, tr ++ [UCmd.setDefaultSink (strLit "universal_compressor")])
  | stp :: rest, k, st, tr =>
    if w k then
      runSteps w rest (k + 1) { st with mods := st.mods ++ [(stp.mtype, natChars k)] }
        (tr ++ [UCmd.load stp.mtype true (natChars k)])
    else if stp.tolerated then
      runSteps w rest (k + 1) st (tr ++ [UCmd.load stp.mtype false (natChars k)])
    else
      let s2 := stop_audio_pipeline st
      (s2.1, false, tr ++ UCmd.load stp.mtype false (natChars k) :: s2.2)

/-- `create_audio_pipeline` (lines 73-193): stop any previous pipeline, then
run the creation steps. -/
def create_audio_pipeline (front rearL rearR : Str) (w : Nat → Bool) (st0 : UState) :
    UState × Bool × List UCmd :=
  let s1 := stop_audio_pipeline st0
  runSteps w (stepsOf front rearL rearR) 0 s1.1 s1.2

/-- The ids returned by the successful load calls of a trace, in order. -/
def okLoadIds (tr : List UCmd) : List Str :=
  tr.filterMap (fun c => match c with | UCmd.load _ true o => some o | _ => none)

theorem okLoadIds_append (t1 t2 : List UCmd) :
    okLoadIds (t1 ++ t2) = okLoadIds t1 ++ okLoadIds t2 := by
  simp [okLoadIds]

/-- Failure analysis of `runSteps`: whenever it returns `False`, the tracked
state is empty and inactive, and the trace extends the incoming one with some
load attempts, the failing load, and then exactly the unloads of everything
tracked at the time of the failure (incoming tracked modules plus the
successful loads), in reverse order. -/
theorem runSteps_fail (w : Nat → Bool) :
    ∀ (steps : List UStep) (k : Nat) (st : UState) (tr : List UCmd)
      (st2 : UState) (tr2 : List UCmd),
      runSteps w steps k st tr = (st2, false, tr2) →
      (st.mods = [] → st.active = false) →
      st2.mods = [] ∧ st2.active = false ∧
      ∃ (pre : List UCmd) (mt idS : Str),
        tr2 = tr ++ pre ++ UCmd.load mt false idS ::
          ((st.mods.map Prod.snd ++ okLoadIds pre).reverse.map UCmd.unload) := by
  intro steps
  induction steps with
  | nil =>
    intro k st tr st2 tr2 hrun
    simp [runSteps] at hrun
  | cons stp rest ih =>
    intro k st tr st2 tr2 hrun hact
    rw [runSteps] at hrun
    by_cases hw : w k = true
    · rw [if_pos hw] at hrun
      have hact2 : ({ st with mods := st.mods ++ [(stp.mtype, natChars k)] } : UState).mods = [] →
          ({ st with mods := st.mods ++ [(stp.mtype, natChars k)] } : UState).active = false := by
        intro h; simp at h
      obtain ⟨h1, h2, pre, mt, idS, htr⟩ := ih _ _ _ _ _ hrun hact2
      refine ⟨h1, h2, UCmd.load stp.mtype true (natChars k) :: pre, mt, idS, ?_⟩
      rw [htr]
      simp [okLoadIds, List.append_assoc]
    · rw [if_neg hw] at hrun
      by_cases htol : stp.tolerated = true
      · rw [if_pos htol] at hrun
        obtain ⟨h1, h2, pre, mt, idS, htr⟩ := ih _ _ _ _ _ hrun hact
        refine ⟨h1, h2, UCmd.load stp.mtype false (natChars k) :: pre, mt, idS, ?_⟩
        rw [htr]
        simp [okLoadIds, List.append_assoc]
      · rw [if_neg htol] at hrun
        simp only [stop_audio_pipeline] at hrun
        by_cases hmods : st.mods.isEmpty = true
        · rw [if_pos hmods] at hrun
          have hmods2 : st.mods = [] := by simpa using hmods
          obtain ⟨hst, htr⟩ : st = st2 ∧ tr ++ UCmd.load stp.mtype false (natChars k) :: [] = tr2 := by
            have h1 := congrArg Prod.fst hrun
            have h2 := congrArg (fun x => x.2.2) hrun
            exact ⟨h1, h2⟩
          subst hst
          refine ⟨hmods2, hact hmods2, [], stp.mtype, natChars k, ?_⟩
          rw [← htr]
          simp [okLoadIds, hmods2]
        · rw [if_neg hmods] at hrun
          obtain ⟨hst, htr⟩ :
              (⟨[], false⟩ : UState) = st2 ∧
                tr ++ UCmd.load stp.mtype false (natChars k) ::
                  (st.mods.reverse.map (fun tm => UCmd.unload tm.2)) = tr2 := by
            have h1 := congrArg Prod.fst hrun
            have h2 := congrArg (fun x => x.2.2) hrun
            exact ⟨h1, h2⟩
          subst hst
          refine ⟨rfl, rfl, [], stp.mtype, natChars k, ?_⟩
          rw [← htr]
          simp [okLoadIds, List.map_reverse, List.map_map]

end Univ

namespace Backend

/-- `audio_splitter_v2_backend.py`, `BackendAudioManager.cleanup_pipeline`
(lines 201-232), basic-cleanup branch (no `sink_manager`): early return when
nothing is tracked, otherwise unload the reversed tracked list (each unload is
best-effort, results ignored) and clear it. -/
def cleanup_pipeline (mods : List (Str × Str)) : List (Str × Str) × List Univ.UCmd :=
  if mods.isEmpty then (mods, [])
  else ([], mods.reverse.map (fun tm => Univ.UCmd.unload tm.2))

end Backend

/-- C9: after the tracked-state stop operation returns, the tracked module
list is empty and the pipeline-active flag is false — the unload results are
never consulted, so this holds whether or not the individual unloads succeed —
and a second stop issues no external calls.  The hypothesis
`st.mods = [] → st.active = false` is the reachable-state invariant: the
sources only set `pipeline_active` after appending at least one tracked
module, so an empty tracked list never coexists with an active flag (the
early-return branch of `stop_audio_pipeline` would otherwise keep a stale
flag).  The backend's `cleanup_pipeline` tracks no flag; its list is likewise
cleared and a second cleanup issues nothing. -/
theorem C9_stop_clears_tracked_state :
    (∀ st : Univ.UState, (st.mods = [] → st.active = false) →
      (Univ.stop_audio_pipeline st).1.mods = [] ∧
      (Univ.stop_audio_pipeline st).1.active = false ∧
      (Univ.stop_audio_pipeline (Univ.stop_audio_pipeline st).1).2 = []) ∧
    (∀ mods : List (Str × Str),
      (Backend.cleanup_pipeline mods).1 = [] ∧
      (Backend.cleanup_pipeline (Backend.cleanup_pipeline mods).1).2 = []) := by
  constructor
  · intro st hinv
    by_cases h : st.mods.isEmpty = true
    · have h2 : st.mods = [] := by simpa using h
      simp [Univ.stop_audio_pipeline, h, h2, hinv h2]
    · simp [Univ.stop_audio_pipeline, h]
  · intro mods
    by_cases h : mods.isEmpty = true
    · have h2 : mods = [] := by simpa using h
      simp [Backend.cleanup_pipeline, h, h2]
    · simp [Backend.cleanup_pipeline, h]

/-- Witness for C9 at a concrete two-module tracked state. -/
theorem C9_stop_clears_tracked_state_witness :
    (Univ.stop_audio_pipeline
        ⟨[(strLit "module-null-sink", strLit "8"), (strLit "module-loopback", strLit "9")],
          true⟩).1.mods = [] ∧
    (Univ.stop_audio_pipeline
        ⟨[(strLit "module-null-sink", strLit "8"), (strLit "module-loopback", strLit "9")],
          true⟩).1.active = false ∧
    (Univ.stop_audio_pipeline
        (Univ.stop_audio_pipeline
          ⟨[(strLit "module-null-sink", strLit "8"), (strLit "module-loopback", strLit "9")],
            true⟩).1).2 = [] :=
  C9_stop_clears_tracked_state.1 _ (by intro h; cases h)

/-! ## `run_cmd` totality (claim C10)

`audio_mastering_gui.py`, `run_cmd` (lines 98-111): the whole body is wrapped
in `try/except Exception`; the argument below models the outcome of the
`subprocess.run` call — either a completed process result or a raised
exception rendered by `str(e)`. -/

namespace MG

/-- The source's `run_cmd` (named `runCmd` here since Lean reserves that
identifier), as a function of the subprocess outcome: a completed command
yields `(returncode, stdout, stderr)` verbatim; any exception is caught and
becomes `(1, "", str(e))`. -/
def runCmd (outcome : Except Str (Int × Str × Str)) : Int × Str × Str :=
  match outcome with
  | Except.ok r => r
  | Except.error e => (1, [], e)

end MG

/-- C10: `run_cmd` is total — every outcome maps to a result triple, no
exception propagates (the catch-all branch yields `(1, "", str(e))`), and when
the command completes the returned exit code is the process's actual exit
status and the output streams are returned verbatim. -/
theorem C10_run_cmd_total :
    (∀ e : Str, MG.runCmd (Except.error e) = (1, [], e)) ∧
    (∀ code : Int, ∀ out err : Str,
      MG.runCmd (Except.ok (code, out, err)) = (code, out, err)) := by
  exact ⟨fun e => rfl, fun code out err => rfl⟩

/-! ## Mastering pipeline builder: `audio_mastering_gui.py` (claims C2, C5)

`build_mastering_pipeline` (lines 677-819) shells out through `run_cmd`; we
model the external world as a response stream `w : Nat → Int × Str` giving the
exit code and stdout of the `i`-th external call, and thread an explicit
state `(call counter, trace of issued commands)` through an error monad that
models the `RuntimeError` / `ValueError` exceptions the source raises.
The source's `find_module_ids` matches each module-list line against a regular
expression via `re.search`; the regex engine is a parameter
`matcher : Str → Str → Bool` of the model (it is Python library code, not
repository code), applied to exactly the lines the source applies it to. -/

namespace MG

/-- External calls issued by the mastering GUI. -/
inductive MCmd
  | listModules
  | listShortSinks
  | listShortSinkInputs
  | unloadModule (idStr : Str)
  | loadModule (args : Str)
  | setDefaultSink (name : Str)
  | moveSinkInput (idStr target : Str)
deriving DecidableEq, Repr

/-- Threaded state: number of external calls made so far, and the trace of
issued commands. -/
abbrev MSt := Nat × List MCmd

/-- The effect monad of the mastering model: state threading plus the
exceptions (`raise ...`) of the source.  The state — in particular the trace —
is preserved when an exception escapes. -/
def M (α : Type) : Type := MSt → Except Str α × MSt

instance : Monad M where
  pure a := fun s => (Except.ok a, s)
  bind x f := fun s =>
    match x s with
    | (Except.ok a, s2) => f a s2
    | (Except.error e, s2) => (Except.error e, s2)

/-- `raise` in the source. -/
def throwM {α : Type} (e : Str) : M α := fun s => (Except.error e, s)

/-- Issue one external call: consume the next response of the stream and
record the command. -/
def mrun (w : Nat → Int × Str) (c : MCmd) : M (Int × Str) :=
  fun s => (Except.ok (w s.1), (s.1 + 1, s.2 ++ [c]))

/-- The line scan of `find_module_ids` (lines 113-133): track the current
`Module #` id; a line matching the pattern emits the current id and resets
it. -/
def scanModules (matcher : Str → Str → Bool) (pattern : Str) :
    List Str → Option Str → List Str
  | [], _ => []
  | line :: rest, cur =>
    if (strLit "Module #").isPrefixOf line then
      scanModules matcher pattern rest (some (trimL (betweenChar '#' line)))
    else
      match cur with
      | some cid =>
        if matcher pattern line then cid :: scanModules matcher pattern rest none
        else scanModules matcher pattern rest (some cid)
      | none => scanModules matcher pattern rest none

/-- `find_module_ids` (mastering variant: one regex pattern). -/
def find_module_ids (w : Nat → Int × Str) (matcher : Str → Str → Bool) (pattern : Str) :
    M (List Str) := do
  let r ← mrun w MCmd.listModules
  if r.1 ≠ 0 then pure [] else pure (scanModules matcher pattern (pylines r.2) none)

/-- `unload_modules_by_patterns` (lines 135-142). -/
def unload_modules_by_patterns (w : Nat → Int × Str) (matcher : Str → Str → Bool)
    (patterns : List Str) : M Unit :=
  patterns.forM (fun pat => do
    let ids ← find_module_ids w matcher pat
    ids.forM (fun i => do
      let _ ← mrun w (MCmd.unloadModule i)
      pure ()))

/-- The teardown regex patterns of `stop_pipeline` (lines 144-168), with the
default configured sink names. -/
def stopPatterns : List Str :=
  [strLit "module-loopback.*source=splitter_",
   strLit "module-remap-source.*source_name=(splitter_left|splitter_right)",
   strLit "module-ladspa-sink.*sink_name=multicomp",
   strLit "module-ladspa-sink.*sink_name=eq",
   strLit "module-ladspa-sink.*sink_name=limiter",
   strLit "module-ladspa-sink.*sink_name=compressor",
   strLit "module-null-sink.*sink_name=splitter",
   strLit "module-combine-sink.*sink_name=stereo_split"]

/-- `stop_pipeline` of the mastering GUI. -/
def stop_pipeline (w : Nat → Int × Str) (matcher : Str → Str → Bool) : M Unit :=
  unload_modules_by_patterns w matcher stopPatterns

/-- One multiband compressor band: enable flag and slider values (the band
controls built by `_create_multiband_section`; there is no `knee` slider, so
the control string's knee slot is the constant 0 the source falls back to). -/
structure MBand where
  enable : Bool
  threshold : ℚ
  ratio : ℚ
  attack : ℚ
  release : ℚ
  makeup : ℚ
deriving DecidableEq, Repr

/-- The inputs of one `build_mastering_pipeline` invocation: the three sink
selections (`"disabled"` when the dropdown is disabled) and the effect slider
values. -/
structure MPlan where
  front : Str
  rearL : Str
  rearR : Str
  limGain : ℚ
  limLimit : ℚ
  limRelease : ℚ
  eqBands : List ℚ
  band1 : MBand
  band2 : MBand
  band3 : MBand
  cross1 : ℚ
  cross2 : ℚ
deriving DecidableEq, Repr

/-- Modelled decimal rendering of an integer (Python `str()` of a slider
value; the exact digit syntax is irrelevant to every verified property). -/
def intChars (i : ℤ) : Str :=
  if i < 0 then '-' :: natChars i.natAbs else natChars i.natAbs

/-- Modelled rendering of a rational slider value. -/
def numStr (q : ℚ) : Str :=
  if q.den = 1 then intChars q.num else intChars q.num ++ '/' :: natChars q.den

/-- `",".join(...)`. -/
def joinWith (sep : Str) : List Str → Str
  | [] => []
  | [x] => x
  | x :: xs => x ++ sep ++ joinWith sep xs

/-- `"1"` / `"0"` for the multiband enable flags. -/
def boolStr (b : Bool) : Str := if b then strLit "1" else strLit "0"

/-- Control-string block for one multiband band (attack, release, knee = 0,
ratio, threshold, makeup — the source order). -/
def bandControls (b : MBand) : List Str :=
  [numStr b.attack, numStr b.release, numStr 0, numStr b.ratio,
   numStr b.threshold, numStr b.makeup]

/-- The full ZaMultiCompX2 control string. -/
def multicompControls (p : MPlan) : Str :=
  joinWith [','] (bandControls p.band1 ++ bandControls p.band2 ++ bandControls p.band3 ++
    [numStr p.cross1, numStr p.cross2, boolStr p.band1.enable, boolStr p.band2.enable,
     boolStr p.band3.enable, strLit "0", strLit "0", strLit "0", strLit "1", strLit "0"])

/-- Argument text of the splitter `load-module` attempt for sink name `n`. -/
def splitterArgs (n : Str) : Str :=
  strLit "module-null-sink sink_name=" ++ n ++
    strLit " sink_properties=device.description='Audio Mastering Chain'"

/-- Argument text of the lookahead limiter node. -/
def limiterArgs (p : MPlan) (master : Str) : Str :=
  strLit "module-ladspa-sink sink_name=limiter sink_master=" ++ master ++
    strLit " plugin=fastLookaheadLimiter label=fastLookaheadLimiter control=" ++
    joinWith [','] [numStr p.limGain, numStr p.limLimit, numStr p.limRelease]

/-- Argument text of the 15-band EQ node. -/
def eqArgs (p : MPlan) (master : Str) : Str :=
  strLit "module-ladspa-sink sink_name=eq sink_master=" ++ master ++
    strLit " plugin=mbeq label=mbeq control=" ++ joinWith [','] (p.eqBands.map numStr)

/-- Argument text of the multiband compressor node. -/
def multicompArgs (p : MPlan) (master : Str) : Str :=
  strLit "module-ladspa-sink sink_name=multicomp sink_master=" ++ master ++
    strLit " plugin=ZaMultiCompX2 label=ZaMultiCompX2 control=" ++ multicompControls p

/-- Argument text of a mono channel source. -/
def remapArgs (src master chan : Str) : Str :=
  strLit "module-remap-source source_name=" ++ src ++ strLit " master=" ++ master ++
    strLit ".monitor channels=1 channel_map=mono master_channel_map=" ++ chan

/-- Argument text of a loopback. -/
def loopArgs (src sink : Str) : Str :=
  strLit "module-loopback source=" ++ src ++ strLit " sink=" ++ sink ++
    strLit " latency_msec=50"

/-- The splitter creation loop (lines 706-726): try the candidate sink names
in order — reuse one that already exists, otherwise attempt to create it,
falling through to the next candidate on failure; the `for ... else` raises
when all candidates fail. -/
def tryCreateSink (w : Nat → Int × Str) (allSinks : List Str) : List Str → M Str
  | [] => throwM (strLit "Could not create or reuse any splitter sink")
  | n :: rest =>
    if n ∈ allSinks then pure n
    else do
      let r ← mrun w (MCmd.loadModule (splitterArgs n))
      if r.1 = 0 then pure n else tryCreateSink w allSinks rest

/-- `move_streams_to_mastering_chain` (lines 820-836). -/
def move_streams (w : Nat → Int × Str) (target : Str) : M Unit := do
  let si ← mrun w MCmd.listShortSinkInputs
  if si.1 ≠ 0 then pure ()
  else
    (pylines si.2).forM (fun line =>
      if (trimL line).isEmpty then pure ()
      else
        match fieldsOf line with
        | sid :: _ => do
          let _ ← mrun w (MCmd.moveSinkInput sid target)
          pure ()
        | [] => pure ())

/-- The optional lookahead-limiter stage (enabled when either limiter slider
is non-zero); on creation failure raises and aborts, otherwise the chain tail
becomes the limiter sink. -/
def limiterStage (w : Nat → Int × Str) (p : MPlan) (master : Str) : M Str :=
  if p.limGain ≠ 0 ∨ p.limLimit ≠ 0 then do
    let rl ← mrun w (MCmd.loadModule (limiterArgs p master))
    if rl.1 ≠ 0 then throwM (strLit "Failed to create lookahead limiter")
    else pure (strLit "limiter")
  else pure master

/-- The optional 15-band EQ stage (enabled when any band is non-zero). -/
def eqStage (w : Nat → Int × Str) (p : MPlan) (master : Str) : M Str :=
  if p.eqBands.any (fun v => v ≠ 0) then do
    let re2 ← mrun w (MCmd.loadModule (eqArgs p master))
    if re2.1 ≠ 0 then throwM (strLit "Failed to create 15-band EQ")
    else pure (strLit "eq")
  else pure master

/-- The optional multiband-compressor stage (enabled when any band enable
checkbox is active). -/
def multicompStage (w : Nat → Int × Str) (p : MPlan) (master : Str) : M Str :=
  if p.band1.enable ∨ p.band2.enable ∨ p.band3.enable then do
    let rm ← mrun w (MCmd.loadModule (multicompArgs p master))
    if rm.1 ≠ 0 then throwM (strLit "Failed to create multiband compressor")
    else pure (strLit "multicomp")
  else pure master

/-- Route one channel source to an output sink unless that output is
disabled; the loopback load result is ignored by the source. -/
def loopbackStage (w : Nat → Int × Str) (src sinkSel : Str) : M Unit :=
  if sinkSel ≠ strLit "disabled" then do
    let _ ← mrun w (MCmd.loadModule (loopArgs src sinkSel))
    pure ()
  else pure ()

/-- Route both channels to the front output unless it is disabled. -/
def frontLoopStage (w : Nat → Int × Str) (p : MPlan) : M Unit :=
  if p.front ≠ strLit "disabled" then do
    let _ ← mrun w (MCmd.loadModule (loopArgs (strLit "splitter_left") p.front))
    let _ ← mrun w (MCmd.loadModule (loopArgs (strLit "splitter_right") p.front))
    pure ()
  else pure ()

/-- Set the chain tail as default sink and move the running streams onto it. -/
def finishStage (w : Nat → Int × Str) (master : Str) : M Unit := do
  let _ ← mrun w (MCmd.setDefaultSink master)
  move_streams w master

/-- Everything `build_mastering_pipeline` does after its initial
`stop_pipeline` call: validation, splitter creation/reuse, effect chain,
channel sources, loopbacks, default sink, stream moves. -/
def build_tail (w : Nat → Int × Str) (p : MPlan) : M Unit :=
  if p.front = strLit "disabled" ∧ p.rearL = strLit "disabled" ∧ p.rearR = strLit "disabled" then
    throwM (strLit "At least one output sink must be enabled")
  else do
    let r ← mrun w MCmd.listShortSinks
    let allSinks :=
      if r.1 = 0 then
        (pylines r.2).filterMap (fun l => if l.isEmpty then none else (fieldsOf l).get? 1)
      else []
    let master0 ← tryCreateSink w allSinks
      [strLit "splitter", strLit "null", strLit "mastering_base", strLit "audio_splitter"]
    let master1 ← limiterStage w p master0
    let master2 ← eqStage w p master1
    let master3 ← multicompStage w p master2
    let rl ← mrun w (MCmd.loadModule (remapArgs (strLit "splitter_left") master3 (strLit "front-left")))
    if rl.1 ≠ 0 then throwM (strLit "Failed to create left channel source")
    else do
      let rr ← mrun w (MCmd.loadModule (remapArgs (strLit "splitter_right") master3 (strLit "front-right")))
      if rr.1 ≠ 0 then throwM (strLit "Failed to create right channel source")
      else do
        frontLoopStage w p
        loopbackStage w (strLit "splitter_left") p.rearL
        loopbackStage w (strLit "splitter_right") p.rearR
        finishStage w master3

/-- `build_mastering_pipeline` (lines 677-819): tear down the previous
generation, then build the new one. -/
def build_mastering_pipeline (w : Nat → Int × Str) (matcher : Str → Str → Bool)
    (p : MPlan) : M Unit := do
  stop_pipeline w matcher
  build_tail w p

end MG

namespace MG

theorem pureM_eq {α : Type} (x : α) (s : MSt) : (pure x : M α) s = (Except.ok x, s) := rfl

theorem bindM_eq {α β : Type} (a : M α) (f : α → M β) (s : MSt) :
    (a >>= f) s =
      match a s with
      | (Except.ok x, s2) => f x s2
      | (Except.error e, s2) => (Except.error e, s2) := rfl

/-- An action that always succeeds and appends only teardown commands (module
list queries and unloads) to the trace. -/
def TeardownAct {α : Type} (a : M α) : Prop :=
  ∀ s : MSt, ∃ (x : α) (k2 : Nat) (Δ : List MCmd),
    a s = (Except.ok x, (k2, s.2 ++ Δ)) ∧
    ∀ c ∈ Δ, c = MCmd.listModules ∨ ∃ i, c = MCmd.unloadModule i

theorem teardownAct_pure {α : Type} (x : α) : TeardownAct (pure x : M α) := by
  intro s
  exact ⟨x, s.1, [], by simp [pureM_eq], by simp⟩

theorem teardownAct_bind {α β : Type} {a : M α} {f : α → M β}
    (ha : TeardownAct a) (hf : ∀ x, TeardownAct (f x)) : TeardownAct (a >>= f) := by
  intro s
  obtain ⟨x, k2, Δ1, hx, hΔ1⟩ := ha s
  obtain ⟨y, k3, Δ2, hy, hΔ2⟩ := hf x (k2, s.2 ++ Δ1)
  refine ⟨y, k3, Δ1 ++ Δ2, ?_, ?_⟩
  · have hb : (a >>= f) s = f x (k2, s.2 ++ Δ1) := by rw [bindM_eq, hx]
    rw [hb, hy]
    simp [List.append_assoc]
  · intro c hc
    rcases List.mem_append.1 hc with h | h
    · exact hΔ1 c h
    · exact hΔ2 c h

theorem teardownAct_ite {α : Type} (c : Prop) [Decidable c] {a b : M α}
    (ha : TeardownAct a) (hb : TeardownAct b) : TeardownAct (if c then a else b) := by
  by_cases h : c
  · rwa [if_pos h]
  · rwa [if_neg h]

theorem teardownAct_mrun_list (w : Nat → Int × Str) :
    TeardownAct (mrun w MCmd.listModules) := by
  intro s
  exact ⟨w s.1, s.1 + 1, [MCmd.listModules], rfl, by simp⟩

theorem teardownAct_mrun_unload (w : Nat → Int × Str) (i : Str) :
    TeardownAct (mrun w (MCmd.unloadModule i)) := by
  intro s
  exact ⟨w s.1, s.1 + 1, [MCmd.unloadModule i], rfl, by simp⟩

theorem teardownAct_forM {α : Type} (l : List α) (f : α → M PUnit)
    (hf : ∀ x ∈ l, TeardownAct (f x)) : TeardownAct (l.forM f) := by
  induction l with
  | nil => exact teardownAct_pure _
  | cons x xs ih =>
    show TeardownAct (f x >>= fun _ => xs.forM f)
    exact teardownAct_bind (hf x (by simp))
      (fun _ => ih (fun y hy => hf y (by simp [hy])))

theorem teardownAct_find (w : Nat → Int × Str) (matcher : Str → Str → Bool) (pat : Str) :
    TeardownAct (find_module_ids w matcher pat) := by
  unfold find_module_ids
  exact teardownAct_bind (teardownAct_mrun_list w)
    (fun r => teardownAct_ite _ (teardownAct_pure _) (teardownAct_pure _))

theorem teardownAct_unload_by_patterns (w : Nat → Int × Str) (matcher : Str → Str → Bool)
    (patterns : List Str) : TeardownAct (unload_modules_by_patterns w matcher patterns) := by
  unfold unload_modules_by_patterns
  refine teardownAct_forM _ _ (fun pat _ => ?_)
  refine teardownAct_bind (teardownAct_find w matcher pat) (fun ids => ?_)
  refine teardownAct_forM _ _ (fun i _ => ?_)
  exact teardownAct_bind (teardownAct_mrun_unload w i) (fun _ => teardownAct_pure _)

theorem teardownAct_stop (w : Nat → Int × Str) (matcher : Str → Str → Bool) :
    TeardownAct (stop_pipeline w matcher) :=
  teardownAct_unload_by_patterns w matcher stopPatterns

/-- An action that never appends an unload command to the trace (it may fail;
the trace is still only extended). -/
def NoUnloadAct {α : Type} (a : M α) : Prop :=
  ∀ s : MSt, ∃ Δ : List MCmd,
    (a s).2.2 = s.2 ++ Δ ∧ ∀ c ∈ Δ, ∀ i, c ≠ MCmd.unloadModule i

theorem noUnload_pure {α : Type} (x : α) : NoUnloadAct (pure x : M α) := by
  intro s
  exact ⟨[], by simp [pureM_eq], by simp⟩

theorem noUnload_throw {α : Type} (e : Str) : NoUnloadAct (throwM e : M α) := by
  intro s
  exact ⟨[], by simp [throwM], by simp⟩

theorem noUnload_mrun (w : Nat → Int × Str) (c : MCmd)
    (hc : ∀ i, c ≠ MCmd.unloadModule i) : NoUnloadAct (mrun w c) := by
  intro s
  exact ⟨[c], rfl, by simpa using hc⟩

theorem noUnload_mrun_load (w : Nat → Int × Str) (a : Str) :
    NoUnloadAct (mrun w (MCmd.loadModule a)) :=
  noUnload_mrun w _ (by intro i h; cases h)

theorem noUnload_mrun_setDefault (w : Nat → Int × Str) (n : Str) :
    NoUnloadAct (mrun w (MCmd.setDefaultSink n)) :=
  noUnload_mrun w _ (by intro i h; cases h)

theorem noUnload_mrun_shortSinks (w : Nat → Int × Str) :
    NoUnloadAct (mrun w MCmd.listShortSinks) :=
  noUnload_mrun w _ (by intro i h; cases h)

theorem noUnload_mrun_sinkInputs (w : Nat → Int × Str) :
    NoUnloadAct (mrun w MCmd.listShortSinkInputs) :=
  noUnload_mrun w _ (by intro i h; cases h)

theorem noUnload_mrun_move (w : Nat → Int × Str) (i t : Str) :
    NoUnloadAct (mrun w (MCmd.moveSinkInput i t)) :=
  noUnload_mrun w _ (by intro i h; cases h)

theorem noUnload_bind {α β : Type} {a : M α} {f : α → M β}
    (ha : NoUnloadAct a) (hf : ∀ x, NoUnloadAct (f x)) : NoUnloadAct (a >>= f) := by
  intro s
  obtain ⟨Δ1, h1, hΔ1⟩ := ha s
  rcases ha2 : a s with ⟨res, s2⟩
  rw [ha2] at h1
  rcases res with e | x
  · refine ⟨Δ1, ?_, hΔ1⟩
    have hb : (a >>= f) s = (Except.error e, s2) := by rw [bindM_eq, ha2]
    rw [hb]
    exact h1
  · obtain ⟨Δ2, h2, hΔ2⟩ := hf x s2
    refine ⟨Δ1 ++ Δ2, ?_, ?_⟩
    · have hb : (a >>= f) s = f x s2 := by rw [bindM_eq, ha2]
      rw [hb, h2, h1, List.append_assoc]
    · intro c hc
      rcases List.mem_append.1 hc with h | h
      · exact hΔ1 c h
      · exact hΔ2 c h

theorem noUnload_forM {α : Type} (l : List α) (f : α → M PUnit)
    (hf : ∀ x ∈ l, NoUnloadAct (f x)) : NoUnloadAct (l.forM f) := by
  induction l with
  | nil => exact noUnload_pure _
  | cons x xs ih =>
    show NoUnloadAct (f x >>= fun _ => xs.forM f)
    exact noUnload_bind (hf x (by simp))
      (fun _ => ih (fun y hy => hf y (by simp [hy])))

theorem noUnload_ite {α : Type} (c : Prop) [Decidable c] {a b : M α}
    (ha : NoUnloadAct a) (hb : NoUnloadAct b) : NoUnloadAct (if c then a else b) := by
  by_cases h : c
  · rwa [if_pos h]
  · rwa [if_neg h]

theorem noUnload_tryCreateSink (w : Nat → Int × Str) (allSinks : List Str) :
    ∀ cands : List Str, NoUnloadAct (tryCreateSink w allSinks cands) := by
  intro cands
  induction cands with
  | nil => exact noUnload_throw _
  | cons n rest ih =>
    unfold tryCreateSink
    refine noUnload_ite _ (noUnload_pure _) ?_
    refine noUnload_bind (noUnload_mrun_load w _) (fun r => ?_)
    exact noUnload_ite _ (noUnload_pure _) ih

theorem noUnload_move_streams (w : Nat → Int × Str) (target : Str) :
    NoUnloadAct (move_streams w target) := by
  unfold move_streams
  refine noUnload_bind (noUnload_mrun_sinkInputs w) (fun si => ?_)
  refine noUnload_ite _ (noUnload_pure _) ?_
  refine noUnload_forM _ _ (fun line _ => ?_)
  refine noUnload_ite _ (noUnload_pure _) ?_
  rcases fieldsOf line with _ | ⟨sid, _⟩
  · exact noUnload_pure _
  · exact noUnload_bind (noUnload_mrun_move w _ _) (fun _ => noUnload_pure _)

/-- No stage of `build_tail` ever unloads a module: the limiter stage. -/
theorem noUnload_limiterStage (w : Nat → Int × Str) (p : MPlan) (master : Str) :
    NoUnloadAct (limiterStage w p master) := by
  unfold limiterStage
  refine noUnload_ite _ ?_ (noUnload_pure _)
  exact noUnload_bind (noUnload_mrun_load w _)
    (fun rl => noUnload_ite _ (noUnload_throw _) (noUnload_pure _))

/-- The EQ stage never unloads a module. -/
theorem noUnload_eqStage (w : Nat → Int × Str) (p : MPlan) (master : Str) :
    NoUnloadAct (eqStage w p master) := by
  unfold eqStage
  refine noUnload_ite _ ?_ (noUnload_pure _)
  exact noUnload_bind (noUnload_mrun_load w _)
    (fun re2 => noUnload_ite _ (noUnload_throw _) (noUnload_pure _))

/-- The multiband stage never unloads a module. -/
theorem noUnload_multicompStage (w : Nat → Int × Str) (p : MPlan) (master : Str) :
    NoUnloadAct (multicompStage w p master) := by
  unfold multicompStage
  refine noUnload_ite _ ?_ (noUnload_pure _)
  exact noUnload_bind (noUnload_mrun_load w _)
    (fun rm => noUnload_ite _ (noUnload_throw _) (noUnload_pure _))

/-- The loopback stages never unload a module. -/
theorem noUnload_loopbackStage (w : Nat → Int × Str) (src sinkSel : Str) :
    NoUnloadAct (loopbackStage w src sinkSel) := by
  unfold loopbackStage
  refine noUnload_ite _ ?_ (noUnload_pure _)
  exact noUnload_bind (noUnload_mrun_load w _) (fun _ => noUnload_pure _)

/-- The front loopback stage never unloads a module. -/
theorem noUnload_frontLoopStage (w : Nat → Int × Str) (p : MPlan) :
    NoUnloadAct (frontLoopStage w p) := by
  unfold frontLoopStage
  refine noUnload_ite _ ?_ (noUnload_pure _)
  exact noUnload_bind (noUnload_mrun_load w _)
    (fun _ => noUnload_bind (noUnload_mrun_load w _) (fun _ => noUnload_pure _))

/-- The finishing stage never unloads a module. -/
theorem noUnload_finishStage (w : Nat → Int × Str) (master : Str) :
    NoUnloadAct (finishStage w master) := by
  unfold finishStage
  exact noUnload_bind (noUnload_mrun_setDefault w _)
    (fun _ => noUnload_move_streams w master)

/-- Everything `build_mastering_pipeline` does after its initial
`stop_pipeline` teardown never unloads a module — in particular no rollback is
performed when a creation step fails. -/
theorem noUnload_build_tail (w : Nat → Int × Str) (p : MPlan) :
    NoUnloadAct (build_tail w p) := by
  unfold build_tail
  refine noUnload_ite _ (noUnload_throw _) ?_
  refine noUnload_bind (noUnload_mrun_shortSinks w) (fun r => ?_)
  refine noUnload_bind (noUnload_tryCreateSink w _ _) (fun master0 => ?_)
  refine noUnload_bind (noUnload_limiterStage w p master0) (fun master1 => ?_)
  refine noUnload_bind (noUnload_eqStage w p master1) (fun master2 => ?_)
  refine noUnload_bind (noUnload_multicompStage w p master2) (fun master3 => ?_)
  refine noUnload_bind (noUnload_mrun_load w _) (fun rl => ?_)
  refine noUnload_ite _ (noUnload_throw _) ?_
  refine noUnload_bind (noUnload_mrun_load w _) (fun rr => ?_)
  refine noUnload_ite _ (noUnload_throw _) ?_
  refine noUnload_bind (noUnload_frontLoopStage w p) (fun u1 => ?_)
  refine noUnload_bind (noUnload_loopbackStage w _ _) (fun u2 => ?_)
  refine noUnload_bind (noUnload_loopbackStage w _ _) (fun u3 => ?_)
  exact noUnload_finishStage w master3

end MG

/-- An all-disabled routing selection, with every effect disabled. -/
def planAllDisabled : MG.MPlan :=
  ⟨strLit "disabled", strLit "disabled", strLit "disabled", 0, 0, 0, [],
   ⟨false, 0, 0, 0, 0, 0⟩, ⟨false, 0, 0, 0, 0, 0⟩, ⟨false, 0, 0, 0, 0, 0⟩, 0, 0⟩

/-- A concrete external world: every call succeeds with empty output. -/
def mgWorldOk : Nat → Int × Str := fun _ => (0, [])

/-- A concrete regex matcher (never consulted in the concrete runs below,
whose module enumerations are empty). -/
def mgMatcherNone : Str → Str → Bool := fun _ _ => false

/-- C5 counterexample: with every routing target disabled,
`build_mastering_pipeline` does raise the validation error, but only after its
initial `stop_pipeline` teardown has already issued eight external
`pactl list modules` calls — not with zero external calls as the claim
states. -/
theorem C5_counterexample :
    (MG.build_mastering_pipeline mgWorldOk mgMatcherNone planAllDisabled (0, [])).1 =
      Except.error (strLit "At least one output sink must be enabled") ∧
    (MG.build_mastering_pipeline mgWorldOk mgMatcherNone planAllDisabled (0, [])).2.2 =
      List.replicate 8 MG.MCmd.listModules ∧
    (MG.build_mastering_pipeline mgWorldOk mgMatcherNone planAllDisabled (0, [])).2.2.length = 8 := by
  refine ⟨?_, ?_, ?_⟩ <;> decide

/-- C5 (amended): with every routing target disabled,
`build_mastering_pipeline` raises the `ValueError` before any node-creation
call — no pipeline node is ever created, so no partial pipeline is started —
but only after the initial teardown, whose external module-list queries and
unloads have already been issued. -/
theorem C5_validation_before_creation :
    ∀ (w : Nat → Int × Str) (matcher : Str → Str → Bool) (p : MG.MPlan),
      p.front = strLit "disabled" → p.rearL = strLit "disabled" → p.rearR = strLit "disabled" →
      (MG.build_mastering_pipeline w matcher p (0, [])).1 =
        Except.error (strLit "At least one output sink must be enabled") ∧
      ∀ c ∈ (MG.build_mastering_pipeline w matcher p (0, [])).2.2,
        c = MG.MCmd.listModules ∨ ∃ i, c = MG.MCmd.unloadModule i := by
  intro w matcher p hf hl hr
  obtain ⟨x, k1, Δ, hstop, hΔ⟩ := MG.teardownAct_stop w matcher (0, [])
  have hbuild : MG.build_mastering_pipeline w matcher p (0, []) =
      MG.build_tail w p (k1, [] ++ Δ) := by
    show (MG.stop_pipeline w matcher >>= fun _ => MG.build_tail w p) (0, []) = _
    rw [MG.bindM_eq, hstop]
  have htail : MG.build_tail w p (k1, [] ++ Δ) =
      (Except.error (strLit "At least one output sink must be enabled"), (k1, [] ++ Δ)) := by
    unfold MG.build_tail
    rw [if_pos ⟨hf, hl, hr⟩]
    rfl
  rw [hbuild, htail]
  exact ⟨rfl, fun c hc => hΔ c (by simpa using hc)⟩

/-- Witness for C5's amended theorem at the concrete all-disabled plan. -/
theorem C5_validation_before_creation_witness :
    (MG.build_mastering_pipeline mgWorldOk mgMatcherNone planAllDisabled (0, [])).1 =
      Except.error (strLit "At least one output sink must be enabled") ∧
    ∀ c ∈ (MG.build_mastering_pipeline mgWorldOk mgMatcherNone planAllDisabled (0, [])).2.2,
      c = MG.MCmd.listModules ∨ ∃ i, c = MG.MCmd.unloadModule i :=
  C5_validation_before_creation mgWorldOk mgMatcherNone planAllDisabled rfl rfl rfl

/-- C2 (amended): in `universal_audio_splitter.create_audio_pipeline`, failure
of any required creation step aborts the remaining steps and invokes
`stop_audio_pipeline`, which unloads exactly the successfully created modules
in reverse order, and the caller observes a single `False` result with an
empty, inactive tracked state; in `audio_mastering_gui.build_mastering_pipeline`,
by contrast, nothing after the initial teardown ever unloads a module — a
creation failure surfaces as a single terminal error with no rollback. -/
theorem C2_creation_failure_rollback :
    (∀ (front rearL rearR : Str) (w : Nat → Bool) (st0 st2 : Univ.UState)
        (tr2 : List Univ.UCmd),
      (st0.mods = [] → st0.active = false) →
      Univ.create_audio_pipeline front rearL rearR w st0 = (st2, false, tr2) →
      st2.mods = [] ∧ st2.active = false ∧
      ∃ (pre : List Univ.UCmd) (mt idS : Str),
        tr2 = (Univ.stop_audio_pipeline st0).2 ++ pre ++
          Univ.UCmd.load mt false idS ::
            ((Univ.okLoadIds pre).reverse.map Univ.UCmd.unload)) ∧
    (∀ (w : Nat → Int × Str) (matcher : Str → Str → Bool) (p : MG.MPlan),
      ∃ t2, (MG.build_mastering_pipeline w matcher p (0, [])).2.2 =
          (MG.stop_pipeline w matcher (0, [])).2.2 ++ t2 ∧
        ∀ c ∈ t2, ∀ i, c ≠ MG.MCmd.unloadModule i) := by
  constructor
  · intro front rearL rearR w st0 st2 tr2 hinv hrun
    unfold Univ.create_audio_pipeline at hrun
    have hact : (Univ.stop_audio_pipeline st0).1.mods = [] →
        (Univ.stop_audio_pipeline st0).1.active = false := by
      unfold Univ.stop_audio_pipeline
      by_cases h : st0.mods.isEmpty = true
      · rw [if_pos h]
        exact fun _ => hinv (by simpa using h)
      · rw [if_neg h]
        exact fun _ => rfl
    obtain ⟨h1, h2, pre, mt, idS, htr⟩ := Univ.runSteps_fail w _ _ _ _ _ _ hrun hact
    refine ⟨h1, h2, pre, mt, idS, ?_⟩
    rw [htr]
    have hmods : (Univ.stop_audio_pipeline st0).1.mods = [] := by
      unfold Univ.stop_audio_pipeline
      by_cases h : st0.mods.isEmpty = true
      · rw [if_pos h]
        simpa using h
      · rw [if_neg h]
    rw [hmods]
    simp
  · intro w matcher p
    obtain ⟨x, k1, Δ, hstop, hΔ⟩ := MG.teardownAct_stop w matcher (0, [])
    have hbuild : MG.build_mastering_pipeline w matcher p (0, []) =
        MG.build_tail w p (k1, [] ++ Δ) := by
      show (MG.stop_pipeline w matcher >>= fun _ => MG.build_tail w p) (0, []) = _
      rw [MG.bindM_eq, hstop]
    obtain ⟨t2, htr, ht2⟩ := MG.noUnload_build_tail w p (k1, [] ++ Δ)
    refine ⟨t2, ?_, ht2⟩
    rw [hbuild, htr, hstop]

/-- A concrete tracked state with one stale module for the C2 witness. -/
def uExSt : Univ.UState := ⟨[(strLit "module-loopback", strLit "7")], true⟩

/-- A concrete load oracle for the C2 witness: the third load call (the left
channel source, a required step) fails, everything before succeeds. -/
def uExW : Nat → Bool := fun k => decide (k ≠ 2)

/-- Witness for C2: a concrete run of `create_audio_pipeline` in which the
left channel source fails after splitter and compressor were created; the
hypotheses of the rollback theorem hold and its conclusion follows. -/
theorem C2_creation_failure_rollback_witness :
    Univ.create_audio_pipeline (strLit "d1") [] [] uExW uExSt =
      ((⟨[], false⟩ : Univ.UState), false,
        [Univ.UCmd.unload (strLit "7"),
         Univ.UCmd.load (strLit "module-null-sink") true (strLit "0"),
         Univ.UCmd.load (strLit "module-ladspa-sink") true (strLit "1"),
         Univ.UCmd.load (strLit "module-remap-source") false (strLit "2"),
         Univ.UCmd.unload (strLit "1"), Univ.UCmd.unload (strLit "0")]) ∧
    ((⟨[], false⟩ : Univ.UState).mods = [] ∧ (⟨[], false⟩ : Univ.UState).active = false ∧
      ∃ (pre : List Univ.UCmd) (mt idS : Str),
        [Univ.UCmd.unload (strLit "7"),
         Univ.UCmd.load (strLit "module-null-sink") true (strLit "0"),
         Univ.UCmd.load (strLit "module-ladspa-sink") true (strLit "1"),
         Univ.UCmd.load (strLit "module-remap-source") false (strLit "2"),
         Univ.UCmd.unload (strLit "1"), Univ.UCmd.unload (strLit "0")] =
          (Univ.stop_audio_pipeline uExSt).2 ++ pre ++
            Univ.UCmd.load mt false idS ::
              ((Univ.okLoadIds pre).reverse.map Univ.UCmd.unload)) :=
  ⟨by decide,
   C2_creation_failure_rollback.1 (strLit "d1") [] [] uExW uExSt _ _
     (by decide) (by decide)⟩

/-- Boolean discriminator for unload commands in mastering traces. -/
def MG.isUnloadCmd : MG.MCmd → Bool
  | MG.MCmd.unloadModule _ => true
  | _ => false

/-- A plan with the front output enabled and the limiter enabled (gain 3). -/
def planLimiterOn : MG.MPlan :=
  ⟨strLit "d1", strLit "disabled", strLit "disabled", 3, 0, 0, [],
   ⟨false, 0, 0, 0, 0, 0⟩, ⟨false, 0, 0, 0, 0, 0⟩, ⟨false, 0, 0, 0, 0, 0⟩, 0, 0⟩

/-- A world in which the limiter creation (the eleventh external call: eight
teardown queries, the sink listing, the successful splitter creation, then the
limiter) fails and everything else succeeds. -/
def mgWorldFailLimiter : Nat → Int × Str := fun k => if k = 10 then (1, []) else (0, [])

/-- C2 counterexample: in `build_mastering_pipeline`, when the limiter
creation fails after the splitter sink was successfully created, the run ends
in a terminal error while the trace contains the successful splitter creation
and not a single unload — `stop()` is never invoked to roll back, leaving the
partially built pipeline loaded. -/
theorem C2_counterexample :
    (MG.build_mastering_pipeline mgWorldFailLimiter mgMatcherNone planLimiterOn (0, [])).1 =
      Except.error (strLit "Failed to create lookahead limiter") ∧
    MG.MCmd.loadModule (MG.splitterArgs (strLit "splitter")) ∈
      (MG.build_mastering_pipeline mgWorldFailLimiter mgMatcherNone planLimiterOn (0, [])).2.2 ∧
    mgWorldFailLimiter 9 = (0, []) ∧
    (MG.build_mastering_pipeline mgWorldFailLimiter mgMatcherNone planLimiterOn
        (0, [])).2.2.all (fun c => ¬ MG.isUnloadCmd c) = true := by
  refine ⟨by decide, by decide, by decide, by decide⟩

/-! ## Operational model of `audio_splitter_gui_v2.py` (claims C1, C3, C6)

The external sound server is modelled as a state: a list of loaded modules
(each with kind, argument text and a server-assigned numeric id) plus the
response it gives to `pactl list short sinks`.  `pactl list modules`
enumerates one descriptor block per module; `find_module_ids` matches the
teardown patterns against those blocks by substring exactly as in the source
(see `findIdsInBlocks`); `load-module` appends a module with a fresh id;
`unload-module` removes it.  The card-profile subroutine
(`set_pro_audio_profile`) only issues card queries, a profile-set and a sleep:
it never touches the module list, and is modelled as the single opaque
`profileCall` trace entry. -/

namespace V2

/-- One loaded module of the modelled server. -/
structure PMod where
  kind : Str
  args : Str
  mid : Nat
deriving DecidableEq, Repr

/-- The descriptor block the server renders for a module (id line, `Name:`
line, `Argument:` line — the granularity `find_module_ids` matches on). -/
def blockText (m : PMod) : Str :=
  strLit "Module #" ++ natChars m.mid ++ strLit "\n\tName: " ++ m.kind ++
    strLit "\n\tArgument: " ++ m.args

/-- A module matches a teardown pattern group when every pattern is a
substring of its block. -/
def modMatches (ps : List Str) (m : PMod) : Bool :=
  ps.all (fun p => strContains (blockText m) p)

/-- The modelled server state: fresh-id counter, loaded modules, and the
response to the sink-listing query. -/
structure PState where
  nextId : Nat
  mods : List PMod
  sinkCode : Int
  sinkOut : Str
deriving DecidableEq, Repr

/-- External calls issued by the v2 apply/stop lifecycle. -/
inductive ACmd
  | listModules
  | listSinks
  | load (kind args : Str)
  | unload (mid : Nat)
  | setDefault (name : Str)
  | profileCall
deriving DecidableEq, Repr

/-- Well-formedness of the server state: module ids are distinct and below
the fresh-id counter. -/
def WF (s : PState) : Prop :=
  (s.mods.map PMod.mid).Nodup ∧ ∀ m ∈ s.mods, m.mid < s.nextId

/-- `find_module_ids` against the modelled enumeration: the ids of the
modules whose block matches every pattern. -/
def findIdsOp (s : PState) (ps : List Str) : List Nat :=
  (s.mods.filter (fun m => modMatches ps m)).map PMod.mid

/-- Server effect of `pactl unload-module mid`. -/
def removeId (s : PState) (mid : Nat) : PState :=
  { s with mods := s.mods.filter (fun m => m.mid ≠ mid) }

/-- `unload_modules_by_patterns`: one module-list query, then an unload per
matching id. -/
def unloadByPatterns (ps : List Str) (s : PState) : PState × List ACmd :=
  ((findIdsOp s ps).foldl removeId s,
   ACmd.listModules :: (findIdsOp s ps).map ACmd.unload)

/-- The twelve pattern groups of `stop_pipeline` (lines 242-271), in source
order: five loopback groups, five remap-source groups, the LADSPA compressor,
and finally the splitter null sink. -/
def teardownGroups : List (List Str) :=
  [[strLit "module-loopback", strLit "splitter_left"],
   [strLit "module-loopback", strLit "splitter_right"],
   [strLit "module-loopback", strLit "front_channels"],
   [strLit "module-loopback", strLit "rear_left_channel"],
   [strLit "module-loopback", strLit "rear_right_channel"],
   [strLit "module-remap-source", strLit "splitter_left"],
   [strLit "module-remap-source", strLit "splitter_right"],
   [strLit "module-remap-source", strLit "front_channels"],
   [strLit "module-remap-source", strLit "rear_left_channel"],
   [strLit "module-remap-source", strLit "rear_right_channel"],
   [strLit "module-ladspa-sink", strLit "compressor"],
   [strLit "module-null-sink", strLit "sink_name=splitter"]]

/-- Sequential teardown over the pattern groups, accumulating the trace. -/
def stopFold (gs : List (List Str)) (s : PState) (tr : List ACmd) : PState × List ACmd :=
  match gs with
  | [] => (s, tr)
  | g :: rest =>
    let r := unloadByPatterns g s
    stopFold rest r.1 (tr ++ r.2)

/-- `stop_pipeline` of v2. -/
def stop_pipeline_op (s : PState) : PState × List ACmd := stopFold teardownGroups s []

/-- Server effect plus trace of `pactl load-module`. -/
def doLoad (kind args : Str) (st : PState × List ACmd) : PState × List ACmd :=
  ({ st.1 with
      nextId := st.1.nextId + 1,
      mods := st.1.mods ++ [⟨kind, args, st.1.nextId⟩] },
   st.2 ++ [ACmd.load kind args])

/-- Argument text of the 5.1 splitter null sink (line 291). -/
def nullSinkArgs : Str :=
  strLit "sink_name=splitter channels=6 channel_map=front-left,front-right,front-center,lfe,rear-left,rear-right sink_properties=device.description='Audio_Splitter_Pro_5.1_Surround'"

/-- The inputs of one `apply_pipeline` call: selected sinks (empty string =
disabled), the rendered compressor slider values, and the two toggles. -/
structure Plan where
  front : Str
  rearL : Str
  rearR : Str
  attackS : Str
  releaseS : Str
  thresholdS : Str
  ratioS : Str
  kneeS : Str
  makeupS : Str
  bypass : Bool
  upmix : Bool
deriving DecidableEq, Repr

/-- The `control=` value `1,{attack},{release},{threshold},{ratio},{knee},{makeup}`. -/
def planControls (p : Plan) : Str :=
  strLit "1," ++ p.attackS ++ strLit "," ++ p.releaseS ++ strLit "," ++ p.thresholdS ++
    strLit "," ++ p.ratioS ++ strLit "," ++ p.kneeS ++ strLit "," ++ p.makeupS

/-- Argument text of the compressor LADSPA sink (line 307). -/
def ladspaArgs (controls splitter : Str) : Str :=
  strLit "sink_name=compressor sink_master=" ++ splitter ++
    strLit " plugin=sc4_1882 label=sc4 control=" ++ controls

/-- Argument text of the front-channels remap source (line 315). -/
def remapFrontArgs (splitter : Str) : Str :=
  strLit "source_name=front_channels master=" ++ splitter ++
    strLit ".monitor channels=2 channel_map=front-left,front-right master_channel_map=front-left,front-right"

/-- Argument text of the rear-left remap source (lines 324-334). -/
def remapRLArgs (upmix : Bool) (splitter : Str) : Str :=
  strLit "source_name=rear_left_channel master=" ++ splitter ++
    strLit ".monitor channels=2 channel_map=front-left,front-right master_channel_map=" ++
    (if upmix then strLit "front-left,rear-left" else strLit "rear-left,rear-left") ++
    strLit " remix=yes"

/-- Argument text of the rear-right remap source (lines 341-351). -/
def remapRRArgs (upmix : Bool) (splitter : Str) : Str :=
  strLit "source_name=rear_right_channel master=" ++ splitter ++
    strLit ".monitor channels=2 channel_map=front-left,front-right master_channel_map=" ++
    (if upmix then strLit "front-right,rear-right" else strLit "rear-right,rear-right") ++
    strLit " remix=yes"

/-- Argument text of a loopback (lines 360, 369, 378). -/
def loopbackArgs (src sink : Str) : Str :=
  strLit "source=" ++ src ++ strLit " sink=" ++ sink ++
    strLit " latency_msec=50 source_dont_move=true sink_dont_move=true"

/-- `apply_pipeline` (lines 274-385): stop the previous generation, re-assert
the pro-audio profile, query and filter the sink list, reuse or create the
splitter, set up (or bypass) the compressor, create the three channel remap
sources, and create a loopback per selected output. -/
def apply_pipeline (p : Plan) (s : PState) : PState × List ACmd :=
  let sp := stop_pipeline_op s
  let s1 := sp.1
  let tr1 := sp.2 ++ [ACmd.profileCall, ACmd.listSinks]
  let sinks := pactl_sinks s1.sinkCode s1.sinkOut
  let splitter :=
    if strLit "splitter" ∈ sinks then strLit "splitter"
    else if strLit "null" ∈ sinks then strLit "null" else []
  let st2 :=
    if splitter.isEmpty then doLoad (strLit "module-null-sink") nullSinkArgs (s1, tr1)
    else (s1, tr1)
  let splitter2 := if splitter.isEmpty then strLit "splitter" else splitter
  let st3 :=
    if p.bypass then (st2.1, st2.2 ++ [ACmd.setDefault splitter2])
    else
      let l := doLoad (strLit "module-ladspa-sink") (ladspaArgs (planControls p) splitter2) st2
      (l.1, l.2 ++ [ACmd.setDefault (strLit "compressor")])
  let st4 := doLoad (strLit "module-remap-source") (remapFrontArgs splitter2) st3
  let st5 := doLoad (strLit "module-remap-source") (remapRLArgs p.upmix splitter2) st4
  let st6 := doLoad (strLit "module-remap-source") (remapRRArgs p.upmix splitter2) st5
  let st7 :=
    if p.front.isEmpty then st6
    else doLoad (strLit "module-loopback") (loopbackArgs (strLit "front_channels") p.front) st6
  let st8 :=
    if p.rearL.isEmpty then st7
    else doLoad (strLit "module-loopback") (loopbackArgs (strLit "rear_left_channel") p.rearL) st7
  if p.rearR.isEmpty then st8
  else doLoad (strLit "module-loopback") (loopbackArgs (strLit "rear_right_channel") p.rearR) st8

/-- The kind/argument pairs of the modules one `apply_pipeline` call creates
(in creation order), given that the filtered sink list can never contain the
internal names, so the splitter is always created anew with master name
`splitter`. -/
def createdSpecs (p : Plan) : List (Str × Str) :=
  (strLit "module-null-sink", nullSinkArgs) ::
    ((if p.bypass then []
      else [(strLit "module-ladspa-sink", ladspaArgs (planControls p) (strLit "splitter"))]) ++
     ([(strLit "module-remap-source", remapFrontArgs (strLit "splitter")),
       (strLit "module-remap-source", remapRLArgs p.upmix (strLit "splitter")),
       (strLit "module-remap-source", remapRRArgs p.upmix (strLit "splitter"))] ++
      ((if p.front.isEmpty then []
        else [(strLit "module-loopback", loopbackArgs (strLit "front_channels") p.front)]) ++
       ((if p.rearL.isEmpty then []
         else [(strLit "module-loopback", loopbackArgs (strLit "rear_left_channel") p.rearL)]) ++
        (if p.rearR.isEmpty then []
         else [(strLit "module-loopback", loopbackArgs (strLit "rear_right_channel") p.rearR)])))))

/-- Assign consecutive server ids to a list of kind/argument pairs. -/
def assignIds (n : Nat) : List (Str × Str) → List PMod
  | [] => []
  | ka :: rest => ⟨ka.1, ka.2, n⟩ :: assignIds (n + 1) rest

end V2

namespace V2

theorem removeId_eq (s : PState) (i : Nat) :
    removeId s i = { s with mods := s.mods.filter (fun m => m.mid ≠ i) } := rfl

theorem foldl_removeId (ids : List Nat) :
    ∀ s : PState, ids.foldl removeId s =
      { s with mods := s.mods.filter (fun m => m.mid ∉ ids) } := by
  induction ids with
  | nil =>
    intro s
    simp [List.foldl]
  | cons i rest ih =>
    intro s
    rw [List.foldl_cons, ih, removeId_eq]
    simp only [List.filter_filter]
    congr 1
    apply List.filter_congr
    intro m _
    by_cases h1 : m.mid = i <;> by_cases h2 : m.mid ∈ rest <;> simp [h1, h2]

theorem mem_findIdsOp_iff {s : PState} (h : (s.mods.map PMod.mid).Nodup)
    {m : PMod} (hm : m ∈ s.mods) (ps : List Str) :
    m.mid ∈ findIdsOp s ps ↔ modMatches ps m = true := by
  unfold findIdsOp
  constructor
  · intro hmem
    obtain ⟨m2, hm2, hmid⟩ := List.mem_map.1 hmem
    obtain ⟨hm2mem, hm2match⟩ := List.mem_filter.1 hm2
    have : m2 = m := List.inj_on_of_nodup_map h hm2mem hm hmid
    rwa [← this]
  · intro hmatch
    exact List.mem_map.2 ⟨m, List.mem_filter.2 ⟨hm, hmatch⟩, rfl⟩

theorem unloadByPatterns_state {s : PState} (h : (s.mods.map PMod.mid).Nodup)
    (g : List Str) :
    (unloadByPatterns g s).1 = { s with mods := s.mods.filter (fun m => ¬ modMatches g m) } := by
  have hfilter : s.mods.filter (fun m => m.mid ∉ findIdsOp s g) =
      s.mods.filter (fun m => ¬ modMatches g m) := by
    apply List.filter_congr
    intro m hm
    have hiff := mem_findIdsOp_iff h hm g
    by_cases hmem : m.mid ∈ findIdsOp s g
    · simp [hmem, hiff.1 hmem]
    · have hfalse : modMatches g m = false := by
        cases hmatch : modMatches g m
        · rfl
        · exact absurd (hiff.2 hmatch) hmem
      simp [hmem, hfalse]
  unfold unloadByPatterns
  rw [foldl_removeId, hfilter]

theorem nodup_filter_mid {mods : List PMod} (h : (mods.map PMod.mid).Nodup) (p : PMod → Bool) :
    ((mods.filter p).map PMod.mid).Nodup := by
  have hsub : List.Sublist ((mods.filter p).map PMod.mid) (mods.map PMod.mid) :=
    (List.filter_sublist mods).map PMod.mid
  exact h.sublist hsub

theorem stopFold_state (gs : List (List Str)) :
    ∀ (s : PState) (tr : List ACmd), (s.mods.map PMod.mid).Nodup →
      (stopFold gs s tr).1 =
        { s with mods := s.mods.filter (fun m => gs.all (fun g => ¬ modMatches g m)) } := by
  induction gs with
  | nil =>
    intro s tr _
    simp [stopFold, List.filter_true]
  | cons g rest ih =>
    intro s tr h
    rw [stopFold]
    have h1 := unloadByPatterns_state h g
    have h2 : (((unloadByPatterns g s).1.mods.map PMod.mid)).Nodup := by
      rw [h1]
      exact nodup_filter_mid h _
    rw [ih _ _ h2, h1]
    simp only [List.filter_filter]
    congr 1
    apply List.filter_congr
    intro m _
    by_cases hg : modMatches g m <;> simp [hg]

theorem stop_state {s : PState} (h : (s.mods.map PMod.mid).Nodup) :
    (stop_pipeline_op s).1 =
      { s with mods :=
          s.mods.filter (fun m => teardownGroups.all (fun g => ¬ modMatches g m)) } :=
  stopFold_state teardownGroups s [] h

/-- The filtered sink catalog can never report the internal names: the parse
excludes `splitter`, `compressor` and `null`. -/
theorem pactl_sinks_not_internal (code : Int) (out : Str) :
    strLit "splitter" ∉ pactl_sinks code out ∧ strLit "null" ∉ pactl_sinks code out := by
  constructor <;>
  · intro hmem
    unfold pactl_sinks at hmem
    by_cases hc : code ≠ 0
    · rw [if_pos hc] at hmem
      cases hmem
    · rw [if_neg hc] at hmem
      obtain ⟨line, _, hline⟩ := List.mem_filterMap.1 hmem
      unfold sinkLineName at hline
      by_cases he : (trimL line).isEmpty = true
      · rw [if_pos he] at hline
        cases hline
      · rw [if_neg he] at hline
        rcases hf : (fieldsOf (trimL line)).get? 1 with _ | f1
        · rw [hf] at hline
          cases hline
        · rw [hf] at hline
          simp only [Option.some_bind] at hline
          by_cases hint : f1 ∈ internalSinks
          · rw [if_pos hint] at hline
            cases hline
          · rw [if_neg hint] at hline
            have hf1 : f1 = strLit "splitter" ∨ f1 = strLit "null" := by
              cases hline
              first
              | exact Or.inl rfl
              | exact Or.inr rfl
            apply hint
            rcases hf1 with rfl | rfl <;> decide

theorem assignIds_map_ka (n : Nat) (specs : List (Str × Str)) :
    (assignIds n specs).map (fun m => (m.kind, m.args)) = specs := by
  induction specs generalizing n with
  | nil => rfl
  | cons ka rest ih =>
    simp [assignIds, ih]

theorem assignIds_map_mid (n : Nat) (specs : List (Str × Str)) :
    (assignIds n specs).map PMod.mid = List.range' n specs.length := by
  induction specs generalizing n with
  | nil => rfl
  | cons ka rest ih =>
    simp [assignIds, ih, List.range']

theorem assignIds_length (n : Nat) (specs : List (Str × Str)) :
    (assignIds n specs).length = specs.length := by
  induction specs generalizing n with
  | nil => rfl
  | cons ka rest ih => simp [assignIds, ih]

theorem mem_assignIds : ∀ {n : Nat} {specs : List (Str × Str)} {m : PMod},
    m ∈ assignIds n specs → ∃ ka ∈ specs, ∃ i : Nat, m = ⟨ka.1, ka.2, i⟩ := by
  intro n specs
  induction specs generalizing n with
  | nil => intro m h; cases h
  | cons ka rest ih =>
    intro m h
    rcases List.mem_cons.1 h with rfl | h2
    · exact ⟨ka, by simp, n, rfl⟩
    · obtain ⟨ka2, hka2, i, hi⟩ := ih h2
      exact ⟨ka2, by simp [hka2], i, hi⟩

end V2

namespace V2

theorem apply_state (p : Plan) (s : PState) (h : (s.mods.map PMod.mid).Nodup) :
    (apply_pipeline p s).1 =
      { nextId := s.nextId + (createdSpecs p).length,
        mods := s.mods.filter (fun m => teardownGroups.all (fun g => ¬ modMatches g m)) ++
          assignIds s.nextId (createdSpecs p),
        sinkCode := s.sinkCode,
        sinkOut := s.sinkOut } := by
  obtain ⟨hns, hnn⟩ := pactl_sinks_not_internal s.sinkCode s.sinkOut
  have hsp := stop_state h
  unfold apply_pipeline
  dsimp only
  rw [hsp]
  dsimp only
  rw [if_neg hns, if_neg hnn]
  cases hb : p.bypass <;> cases hf : p.front.isEmpty <;> cases hl : p.rearL.isEmpty <;>
    cases hr : p.rearR.isEmpty <;>
      simp [doLoad, createdSpecs, assignIds, hb, hf, hl, hr, PState.mk.injEq,
        List.isEmpty_nil, List.append_assoc]

end V2

namespace V2

theorem infix_extend_right {p l r : List Char} (h : p <:+: l) : p <:+: l ++ r :=
  h.trans ⟨[], r, by simp⟩

theorem modMatches_two {m : PMod} {p1 p2 : Str}
    (h1 : strContains (blockText m) p1 = true) (h2 : strContains (blockText m) p2 = true) :
    modMatches [p1, p2] m = true := by
  simp [modMatches, h1, h2]

/-- A module whose block decomposes around a chunk containing both patterns
matches the two-pattern group. -/
theorem modMatches_two_block (m : PMod) (A M B p1 p2 : Str)
    (hb : blockText m = A ++ M ++ B) (h1 : p1 <:+: M) (h2 : p2 <:+: M) :
    modMatches [p1, p2] m = true := by
  apply modMatches_two <;> rw [hb]
  · exact strContains_append_mid A M B p1 h1
  · exact strContains_append_mid A M B p2 h2

theorem nullMatches (i : Nat) :
    modMatches [strLit "module-null-sink", strLit "sink_name=splitter"]
      ⟨strLit "module-null-sink", nullSinkArgs, i⟩ = true := by
  refine modMatches_two_block _ (strLit "Module #" ++ natChars i)
    (strLit "\n\tName: " ++ strLit "module-null-sink" ++ strLit "\n\tArgument: " ++ nullSinkArgs)
    [] _ _ ?_ (by decide) (by decide)
  simp [blockText, nullSinkArgs, List.append_assoc]

theorem ladspaMatches (controls : Str) (i : Nat) :
    modMatches [strLit "module-ladspa-sink", strLit "compressor"]
      ⟨strLit "module-ladspa-sink", ladspaArgs controls (strLit "splitter"), i⟩ = true := by
  refine modMatches_two_block _ (strLit "Module #" ++ natChars i)
    (strLit "\n\tName: " ++ strLit "module-ladspa-sink" ++ strLit "\n\tArgument: " ++
      strLit "sink_name=compressor sink_master=")
    (strLit "splitter" ++ (strLit " plugin=sc4_1882 label=sc4 control=" ++ controls))
    _ _ ?_ (by decide) (by decide)
  simp [blockText, ladspaArgs, List.append_assoc]

theorem remapFMatches (i : Nat) :
    modMatches [strLit "module-remap-source", strLit "front_channels"]
      ⟨strLit "module-remap-source", remapFrontArgs (strLit "splitter"), i⟩ = true := by
  refine modMatches_two_block _ (strLit "Module #" ++ natChars i)
    (strLit "\n\tName: " ++ strLit "module-remap-source" ++ strLit "\n\tArgument: " ++
      strLit "source_name=front_channels master=")
    (strLit "splitter" ++
      strLit ".monitor channels=2 channel_map=front-left,front-right master_channel_map=front-left,front-right")
    _ _ ?_ (by decide) (by decide)
  simp [blockText, remapFrontArgs, List.append_assoc]

theorem remapRLMatches (upmix : Bool) (i : Nat) :
    modMatches [strLit "module-remap-source", strLit "rear_left_channel"]
      ⟨strLit "module-remap-source", remapRLArgs upmix (strLit "splitter"), i⟩ = true := by
  refine modMatches_two_block _ (strLit "Module #" ++ natChars i)
    (strLit "\n\tName: " ++ strLit "module-remap-source" ++ strLit "\n\tArgument: " ++
      strLit "source_name=rear_left_channel master=")
    (strLit "splitter" ++
      (strLit ".monitor channels=2 channel_map=front-left,front-right master_channel_map=" ++
        ((if upmix then strLit "front-left,rear-left" else strLit "rear-left,rear-left") ++
          strLit " remix=yes")))
    _ _ ?_ (by decide) (by decide)
  simp [blockText, remapRLArgs, List.append_assoc]

theorem remapRRMatches (upmix : Bool) (i : Nat) :
    modMatches [strLit "module-remap-source", strLit "rear_right_channel"]
      ⟨strLit "module-remap-source", remapRRArgs upmix (strLit "splitter"), i⟩ = true := by
  refine modMatches_two_block _ (strLit "Module #" ++ natChars i)
    (strLit "\n\tName: " ++ strLit "module-remap-source" ++ strLit "\n\tArgument: " ++
      strLit "source_name=rear_right_channel master=")
    (strLit "splitter" ++
      (strLit ".monitor channels=2 channel_map=front-left,front-right master_channel_map=" ++
        ((if upmix then strLit "front-right,rear-right" else strLit "rear-right,rear-right") ++
          strLit " remix=yes")))
    _ _ ?_ (by decide) (by decide)
  simp [blockText, remapRRArgs, List.append_assoc]

theorem loopFMatches (sink : Str) (i : Nat) :
    modMatches [strLit "module-loopback", strLit "front_channels"]
      ⟨strLit "module-loopback", loopbackArgs (strLit "front_channels") sink, i⟩ = true := by
  refine modMatches_two_block _ (strLit "Module #" ++ natChars i)
    (strLit "\n\tName: " ++ strLit "module-loopback" ++ strLit "\n\tArgument: " ++
      strLit "source=" ++ strLit "front_channels")
    (strLit " sink=" ++
      (sink ++ strLit " latency_msec=50 source_dont_move=true sink_dont_move=true"))
    _ _ ?_ (by decide) (by decide)
  simp [blockText, loopbackArgs, List.append_assoc]

theorem loopRLMatches (sink : Str) (i : Nat) :
    modMatches [strLit "module-loopback", strLit "rear_left_channel"]
      ⟨strLit "module-loopback", loopbackArgs (strLit "rear_left_channel") sink, i⟩ = true := by
  refine modMatches_two_block _ (strLit "Module #" ++ natChars i)
    (strLit "\n\tName: " ++ strLit "module-loopback" ++ strLit "\n\tArgument: " ++
      strLit "source=" ++ strLit "rear_left_channel")
    (strLit " sink=" ++
      (sink ++ strLit " latency_msec=50 source_dont_move=true sink_dont_move=true"))
    _ _ ?_ (by decide) (by decide)
  simp [blockText, loopbackArgs, List.append_assoc]

theorem loopRRMatches (sink : Str) (i : Nat) :
    modMatches [strLit "module-loopback", strLit "rear_right_channel"]
      ⟨strLit "module-loopback", loopbackArgs (strLit "rear_right_channel") sink, i⟩ = true := by
  refine modMatches_two_block _ (strLit "Module #" ++ natChars i)
    (strLit "\n\tName: " ++ strLit "module-loopback" ++ strLit "\n\tArgument: " ++
      strLit "source=" ++ strLit "rear_right_channel")
    (strLit " sink=" ++
      (sink ++ strLit " latency_msec=50 source_dont_move=true sink_dont_move=true"))
    _ _ ?_ (by decide) (by decide)
  simp [blockText, loopbackArgs, List.append_assoc]

theorem all_false_of_mem {α : Type} {l : List α} {f : α → Bool} (x : α)
    (hx : x ∈ l) (hfx : f x = false) : l.all f = false := by
  cases hall : l.all f
  · rfl
  · have := List.all_eq_true.1 hall x hx
    rw [hfx] at this
    cases this

/-- Every module one `apply_pipeline` call creates matches at least one of
the teardown pattern groups, so a subsequent `stop_pipeline` removes it. -/
theorem created_matched (p : Plan) (n : Nat) :
    ∀ m ∈ assignIds n (createdSpecs p),
      (teardownGroups.all (fun g => !modMatches g m)) = false := by
  intro m hm
  obtain ⟨ka, hka, i, rfl⟩ := mem_assignIds hm
  unfold createdSpecs at hka
  rcases List.mem_cons.1 hka with rfl | hka
  · exact all_false_of_mem [strLit "module-null-sink", strLit "sink_name=splitter"]
      (by decide) (by simp [nullMatches i])
  rcases List.mem_append.1 hka with hka | hka
  · by_cases hb : p.bypass = true
    · rw [if_pos hb] at hka
      cases hka
    · rw [if_neg hb] at hka
      have heq := List.mem_singleton.1 hka
      subst heq
      exact all_false_of_mem [strLit "module-ladspa-sink", strLit "compressor"]
        (by decide) (by simp [ladspaMatches (planControls p) i])
  rcases List.mem_append.1 hka with hka | hka
  · rcases List.mem_cons.1 hka with rfl | hka
    · exact all_false_of_mem [strLit "module-remap-source", strLit "front_channels"]
        (by decide) (by simp [remapFMatches i])
    rcases List.mem_cons.1 hka with rfl | hka
    · exact all_false_of_mem [strLit "module-remap-source", strLit "rear_left_channel"]
        (by decide) (by simp [remapRLMatches p.upmix i])
    rcases List.mem_cons.1 hka with rfl | hka
    · exact all_false_of_mem [strLit "module-remap-source", strLit "rear_right_channel"]
        (by decide) (by simp [remapRRMatches p.upmix i])
    cases hka
  rcases List.mem_append.1 hka with hka | hka
  · by_cases hf : p.front.isEmpty = true
    · rw [if_pos hf] at hka
      cases hka
    · rw [if_neg hf] at hka
      have heq := List.mem_singleton.1 hka
      subst heq
      exact all_false_of_mem [strLit "module-loopback", strLit "front_channels"]
        (by decide) (by simp [loopFMatches p.front i])
  rcases List.mem_append.1 hka with hka | hka
  · by_cases hl : p.rearL.isEmpty = true
    · rw [if_pos hl] at hka
      cases hka
    · rw [if_neg hl] at hka
      have heq := List.mem_singleton.1 hka
      subst heq
      exact all_false_of_mem [strLit "module-loopback", strLit "rear_left_channel"]
        (by decide) (by simp [loopRLMatches p.rearL i])
  · by_cases hr : p.rearR.isEmpty = true
    · rw [if_pos hr] at hka
      cases hka
    · rw [if_neg hr] at hka
      have heq := List.mem_singleton.1 hka
      subst heq
      exact all_false_of_mem [strLit "module-loopback", strLit "rear_right_channel"]
        (by decide) (by simp [loopRRMatches p.rearR i])

end V2

namespace V2

theorem apply_WF (p : Plan) (s : PState) (h : WF s) : WF (apply_pipeline p s).1 := by
  obtain ⟨h1, h2⟩ := h
  rw [apply_state p s h1]
  constructor
  · simp only [List.map_append, assignIds_map_mid]
    rw [List.nodup_append]
    refine ⟨nodup_filter_mid h1 _, List.nodup_range' .., ?_⟩
    intro x hx hx2
    obtain ⟨m, hm, rfl⟩ := List.mem_map.1 hx
    have hlt := h2 m (List.mem_of_mem_filter hm)
    simp only [List.mem_range'] at hx2
    omega
  · intro m hm
    show m.mid < s.nextId + (createdSpecs p).length
    rcases List.mem_append.1 hm with hm | hm
    · have := h2 m (List.mem_of_mem_filter hm)
      omega
    · have : m.mid ∈ (assignIds s.nextId (createdSpecs p)).map PMod.mid :=
        List.mem_map.2 ⟨m, hm, rfl⟩
      rw [assignIds_map_mid] at this
      simp only [List.mem_range'] at this
      omega

end V2

/-- C1: `apply_pipeline` is idempotent over the modelled server.  Starting
from any well-formed server state, applying the same plan twice yields the
same steady-state topology as applying it once: the surviving foreign modules
and the freshly created pipeline modules have identical kind/argument
sequences (hence identical node counts and node kinds, with no duplicates),
because `stop_pipeline` always runs first, removes every module the previous
apply created (each matches its teardown pattern group), and leaves untouched
the modules that match no group. -/
theorem C1_apply_idempotent (p : V2.Plan) (s : V2.PState) (h : V2.WF s) :
    (V2.apply_pipeline p (V2.apply_pipeline p s).1).1.mods.map (fun m => (m.kind, m.args)) =
      (V2.apply_pipeline p s).1.mods.map (fun m => (m.kind, m.args)) ∧
    (V2.apply_pipeline p (V2.apply_pipeline p s).1).1.mods.length =
      (V2.apply_pipeline p s).1.mods.length := by
  have hW1 := V2.apply_WF p s h
  have e1 := V2.apply_state p s h.1
  have e2 := V2.apply_state p (V2.apply_pipeline p s).1 hW1.1
  have hmods1 : (V2.apply_pipeline p s).1.mods =
      s.mods.filter (fun m => V2.teardownGroups.all (fun g => ¬ V2.modMatches g m)) ++
        V2.assignIds s.nextId (V2.createdSpecs p) := by rw [e1]
  have hfilter2 : (V2.apply_pipeline p s).1.mods.filter
      (fun m => V2.teardownGroups.all (fun g => ¬ V2.modMatches g m)) =
      s.mods.filter (fun m => V2.teardownGroups.all (fun g => ¬ V2.modMatches g m)) := by
    rw [hmods1, List.filter_append]
    have hcreated : (V2.assignIds s.nextId (V2.createdSpecs p)).filter
        (fun m => V2.teardownGroups.all (fun g => ¬ V2.modMatches g m)) = [] := by
      rw [List.filter_eq_nil_iff]
      intro m hm
      have h2 := V2.created_matched p s.nextId m hm
      simp only [decide_not, Bool.decide_coe]
      simp [h2]
    rw [hcreated, List.append_nil, List.filter_filter]
    apply List.filter_congr
    intro m _
    cases hx : V2.teardownGroups.all (fun g => ¬ V2.modMatches g m) <;> simp [hx]
  constructor
  · rw [e2]
    dsimp only
    rw [hfilter2, e1]
    dsimp only
    simp only [List.map_append, V2.assignIds_map_ka]
  · rw [e2]
    dsimp only
    rw [hfilter2, e1]
    dsimp only
    simp only [List.length_append, V2.assignIds_length]

/-- Concrete inputs for the C1 witness: a bypassed plan with one front device
and an initially empty server. -/
def c1plan : V2.Plan := ⟨"d".toList, [], [], [], [], [], [], [], [], true, false⟩

def c1state : V2.PState := ⟨0, [], 1, []⟩

theorem C1_apply_idempotent_witness :
    V2.WF c1state ∧
    ((V2.apply_pipeline c1plan (V2.apply_pipeline c1plan c1state).1).1.mods.map
        (fun m => (m.kind, m.args)) =
      (V2.apply_pipeline c1plan c1state).1.mods.map (fun m => (m.kind, m.args)) ∧
     (V2.apply_pipeline c1plan (V2.apply_pipeline c1plan c1state).1).1.mods.length =
       (V2.apply_pipeline c1plan c1state).1.mods.length) :=
  ⟨⟨by decide, by decide⟩, C1_apply_idempotent c1plan c1state ⟨by decide, by decide⟩⟩

namespace V2

theorem pfx_split (p A m B : List Char) (hm : m ≠ []) (h : p <+: A ++ (m ++ B)) :
    p <+: A ∨ ∃ c ∈ p, c ∈ m := by
  by_cases hlen : p.length ≤ A.length
  · left
    obtain ⟨t, ht⟩ := h
    have hp : p = (A ++ (m ++ B)).take p.length := by
      rw [← ht, List.take_left]
    have hp2 : p = A.take p.length := by
      conv_lhs => rw [hp]
      rw [List.take_append_of_le_length hlen]
    refine ⟨A.drop p.length, ?_⟩
    nth_rewrite 1 [hp2]
    exact List.take_append_drop _ A
  · right
    push_neg at hlen
    obtain ⟨t, ht⟩ := h
    have hA : p.take A.length = A := by
      have h1 := congrArg (List.take A.length) ht
      rw [List.take_append_of_le_length (le_of_lt hlen), List.take_left] at h1
      exact h1
    have hp2 : p = A ++ p.drop A.length := by
      nth_rewrite 1 [← List.take_append_drop A.length p]
      rw [hA]
    have hdt : p.drop A.length ++ t = m ++ B := by
      apply List.append_cancel_left
      rw [← List.append_assoc, ← hp2]
      exact ht
    have hd : p.drop A.length ≠ [] := by
      intro h0
      have h1 := congrArg List.length h0
      rw [List.length_drop] at h1
      simp only [List.length_nil] at h1
      omega
    cases hdm : p.drop A.length with
    | nil => exact absurd hdm hd
    | cons c d2 =>
      cases m with
      | nil => exact absurd rfl hm
      | cons c2 m2 =>
        rw [hdm] at hdt
        have hc : c = c2 := by
          have h0 := congrArg List.head? hdt
          simpa using h0
        refine ⟨c, ?_, by simp [hc]⟩
        have hcp : c ∈ p.drop A.length := by
          rw [hdm]
          simp
        exact List.drop_subset A.length p hcp

theorem infix_split_chars (p B : List Char) (hp : p ≠ []) :
    ∀ m : List Char, p <:+: m ++ B → (∃ c ∈ p, c ∈ m) ∨ p <:+: B := by
  intro m
  induction m with
  | nil =>
    intro h
    right
    simpa using h
  | cons a m2 ih =>
    intro h
    rw [List.cons_append, List.infix_cons_iff] at h
    rcases h with h | h
    · left
      obtain ⟨t, ht⟩ := h
      cases p with
      | nil => exact absurd rfl hp
      | cons pc p2 =>
        have hpc : pc = a := by
          have h0 := congrArg List.head? ht
          simpa using h0
        exact ⟨pc, by simp, by simp [hpc]⟩
    · rcases ih h with ⟨c, hc1, hc2⟩ | h2
      · exact Or.inl ⟨c, hc1, by simp [hc2]⟩
      · exact Or.inr h2

theorem infix_split_disjoint (p m B : List Char) (hm : m ≠ [])
    (hdisj : ∀ c ∈ p, c ∉ m) :
    ∀ A : List Char, p <:+: A ++ (m ++ B) → p <:+: A ∨ p <:+: B := by
  by_cases hp : p = []
  · intro A _
    exact Or.inl (hp ▸ ⟨[], A, by simp⟩)
  intro A
  induction A with
  | nil =>
    intro h
    simp only [List.nil_append] at h
    rcases infix_split_chars p B hp m h with ⟨c, hc1, hc2⟩ | h2
    · exact absurd hc2 (hdisj c hc1)
    · exact Or.inr h2
  | cons a A2 ih =>
    intro h
    rw [List.cons_append, List.infix_cons_iff] at h
    rcases h with h | h
    · rcases pfx_split p (a :: A2) m B hm (by simpa using h) with h2 | ⟨c, hc1, hc2⟩
      · exact Or.inl h2.isInfix
      · exact absurd hc2 (hdisj c hc1)
    · rcases ih h with h2 | h2
      · exact Or.inl (h2.trans (List.suffix_cons a A2).isInfix)
      · exact Or.inr h2

/-- The per-module text after the id line: name and argument rows. -/
def modTail (k a : Str) : Str :=
  strLit "\n\tName: " ++ k ++ strLit "\n\tArgument: " ++ a

theorem blockText_decomp (k a : Str) (i : Nat) :
    blockText ⟨k, a, i⟩ = strLit "Module #" ++ (natChars i ++ modTail k a) := by
  simp [blockText, modTail, List.append_assoc]

theorem not_contains_block (k a pat : Str) (i : Nat)
    (hd : ∀ c ∈ pat, c ∈ digitChars → False)
    (hA : ¬ pat <:+: strLit "Module #")
    (hB : ¬ pat <:+: modTail k a) :
    strContains (blockText ⟨k, a, i⟩) pat = false := by
  rw [blockText_decomp]
  have h : ¬ pat <:+: strLit "Module #" ++ (natChars i ++ modTail k a) := by
    intro h
    rcases infix_split_disjoint pat (natChars i) (modTail k a) (natChars_ne_nil i)
      (fun c hc hcm => hd c hc (natChars_subset_digits i c hcm)) (strLit "Module #") h with
      h2 | h2
    · exact hA h2
    · exact hB h2
  unfold strContains
  exact decide_eq_false h

end V2

namespace V2

/-- The unload-call ids of a trace, in order. -/
def unloadsOf (tr : List ACmd) : List Nat :=
  tr.filterMap (fun c => match c with | ACmd.unload i => some i | _ => none)

theorem unloadsOf_append (t1 t2 : List ACmd) :
    unloadsOf (t1 ++ t2) = unloadsOf t1 ++ unloadsOf t2 :=
  List.filterMap_append t1 t2 _

theorem unloadsOf_group (ids : List Nat) :
    unloadsOf (ACmd.listModules :: ids.map ACmd.unload) = ids := by
  unfold unloadsOf
  rw [List.filterMap_cons_none rfl, List.filterMap_map]
  have : ∀ l : List Nat, List.filterMap (fun i => some i) l = l := by
    intro l
    induction l with
    | nil => rfl
    | cons x xs ih => simp [List.filterMap_cons, ih]
  exact this ids

/-- The server state after sequentially processing the pattern groups. -/
def sFold : List (List Str) → PState → PState
  | [], s => s
  | g :: rest, s => sFold rest (unloadByPatterns g s).1

/-- The unload ids `stop` issues, group by group, in order. -/
def stopIds : List (List Str) → PState → List Nat
  | [], _ => []
  | g :: rest, s => findIdsOp s g ++ stopIds rest (unloadByPatterns g s).1

theorem stopFold_fst (gs : List (List Str)) :
    ∀ s tr, (stopFold gs s tr).1 = sFold gs s := by
  induction gs with
  | nil =>
    intro s tr
    rfl
  | cons g rest ih =>
    intro s tr
    rw [stopFold, sFold]
    exact ih _ _

theorem stopFold_unloads (gs : List (List Str)) :
    ∀ s tr, unloadsOf (stopFold gs s tr).2 = unloadsOf tr ++ stopIds gs s := by
  induction gs with
  | nil =>
    intro s tr
    simp [stopFold, stopIds]
  | cons g rest ih =>
    intro s tr
    rw [stopFold, stopIds]
    have hu : unloadsOf (unloadByPatterns g s).2 = findIdsOp s g := by
      unfold unloadByPatterns
      exact unloadsOf_group _
    rw [ih, unloadsOf_append, hu, List.append_assoc]

theorem sFold_append (gs1 gs2 : List (List Str)) :
    ∀ s, sFold (gs1 ++ gs2) s = sFold gs2 (sFold gs1 s) := by
  induction gs1 with
  | nil =>
    intro s
    rfl
  | cons g rest ih =>
    intro s
    rw [List.cons_append, sFold, sFold]
    exact ih _

theorem stopIds_append (gs1 gs2 : List (List Str)) :
    ∀ s, stopIds (gs1 ++ gs2) s = stopIds gs1 s ++ stopIds gs2 (sFold gs1 s) := by
  induction gs1 with
  | nil =>
    intro s
    simp [stopIds, sFold]
  | cons g rest ih =>
    intro s
    rw [List.cons_append, stopIds, stopIds, sFold, ih, List.append_assoc]

theorem unloadByPatterns_mods (g : List Str) (s : PState) :
    (unloadByPatterns g s).1.mods = s.mods.filter (fun m => m.mid ∉ findIdsOp s g) := by
  unfold unloadByPatterns
  rw [foldl_removeId]

theorem mem_stopIds (gs : List (List Str)) :
    ∀ s i, i ∈ stopIds gs s →
      ∃ m ∈ s.mods, m.mid = i ∧ ∃ g ∈ gs, modMatches g m = true := by
  induction gs with
  | nil =>
    intro s i h
    cases h
  | cons g rest ih =>
    intro s i h
    rw [stopIds] at h
    rcases List.mem_append.1 h with h | h
    · obtain ⟨m, hm, hmid⟩ := List.mem_map.1 h
      obtain ⟨hmm, hmatch⟩ := List.mem_filter.1 hm
      exact ⟨m, hmm, hmid, g, by simp, hmatch⟩
    · obtain ⟨m, hm, hmid, g2, hg2, hmatch⟩ := ih _ _ h
      rw [unloadByPatterns_mods] at hm
      exact ⟨m, List.mem_of_mem_filter hm, hmid, g2, by simp [hg2], hmatch⟩

theorem sFold_state (gs : List (List Str)) (s : PState) (h : (s.mods.map PMod.mid).Nodup) :
    sFold gs s =
      { s with mods := s.mods.filter (fun m => gs.all (fun g => ¬ modMatches g m)) } := by
  rw [← stopFold_fst gs s []]
  exact stopFold_state gs s [] h

/-- The first five teardown groups: the loopbacks. -/
def loopGroups : List (List Str) := teardownGroups.take 5

/-- The next five teardown groups: the remap channel sources. -/
def remapGroups : List (List Str) := (teardownGroups.drop 5).take 5

/-- The compressor teardown group. -/
def ladspaGroup : List Str := [strLit "module-ladspa-sink", strLit "compressor"]

/-- The splitter null-sink teardown group (processed last). -/
def nullGroup : List Str := [strLit "module-null-sink", strLit "sink_name=splitter"]

theorem teardownGroups_eq :
    teardownGroups = loopGroups ++ (remapGroups ++ ([ladspaGroup] ++ [nullGroup])) := rfl

/-- The kind recorded in the state for the module with the given id. -/
def kindAt (s : PState) (i : Nat) : Option Str :=
  (s.mods.find? (fun m => m.mid = i)).map PMod.kind

theorem kindAt_of_mem {s : PState} (h : (s.mods.map PMod.mid).Nodup)
    {m : PMod} (hm : m ∈ s.mods) : kindAt s m.mid = some m.kind := by
  unfold kindAt
  have hsome : (s.mods.find? (fun m2 => m2.mid = m.mid)).isSome := by
    rw [List.find?_isSome]
    exact ⟨m, hm, by simp⟩
  obtain ⟨m2, hm2⟩ := Option.isSome_iff_exists.1 hsome
  have hmem2 := List.mem_of_find?_eq_some hm2
  have hp := List.find?_some hm2
  simp only [decide_eq_true_eq] at hp
  have heq : m2 = m := List.inj_on_of_nodup_map h hmem2 hm hp
  rw [hm2, heq]
  rfl

theorem null_no_loop (i : Nat) :
    strContains (blockText ⟨strLit "module-null-sink", nullSinkArgs, i⟩)
      (strLit "module-loopback") = false :=
  not_contains_block _ _ _ i (by decide) (by decide) (by decide)

theorem null_no_remap (i : Nat) :
    strContains (blockText ⟨strLit "module-null-sink", nullSinkArgs, i⟩)
      (strLit "module-remap-source") = false :=
  not_contains_block _ _ _ i (by decide) (by decide) (by decide)

theorem null_no_ladspa (i : Nat) :
    strContains (blockText ⟨strLit "module-null-sink", nullSinkArgs, i⟩)
      (strLit "module-ladspa-sink") = false :=
  not_contains_block _ _ _ i (by decide) (by decide) (by decide)

theorem remapF_no_loop (i : Nat) :
    strContains (blockText ⟨strLit "module-remap-source", remapFrontArgs (strLit "splitter"), i⟩)
      (strLit "module-loopback") = false :=
  not_contains_block _ _ _ i (by decide) (by decide) (by decide)

theorem remapRL_no_loop (u : Bool) (i : Nat) :
    strContains (blockText ⟨strLit "module-remap-source", remapRLArgs u (strLit "splitter"), i⟩)
      (strLit "module-loopback") = false := by
  cases u <;>
    exact not_contains_block _ _ _ i (by decide) (by decide) (by decide)

theorem remapRR_no_loop (u : Bool) (i : Nat) :
    strContains (blockText ⟨strLit "module-remap-source", remapRRArgs u (strLit "splitter"), i⟩)
      (strLit "module-loopback") = false := by
  cases u <;>
    exact not_contains_block _ _ _ i (by decide) (by decide) (by decide)

theorem ladspa_no_loop (p : Plan) (i : Nat)
    (hc : ¬ strLit "module-loopback" <:+:
      modTail (strLit "module-ladspa-sink") (ladspaArgs (planControls p) (strLit "splitter"))) :
    strContains
      (blockText ⟨strLit "module-ladspa-sink", ladspaArgs (planControls p) (strLit "splitter"), i⟩)
      (strLit "module-loopback") = false :=
  not_contains_block _ _ _ i (by decide) (by decide) hc

theorem ladspa_no_remap (p : Plan) (i : Nat)
    (hc : ¬ strLit "module-remap-source" <:+:
      modTail (strLit "module-ladspa-sink") (ladspaArgs (planControls p) (strLit "splitter"))) :
    strContains
      (blockText ⟨strLit "module-ladspa-sink", ladspaArgs (planControls p) (strLit "splitter"), i⟩)
      (strLit "module-remap-source") = false :=
  not_contains_block _ _ _ i (by decide) (by decide) hc

end V2

namespace V2

theorem createdSpecs_cases {p : Plan} {ka : Str × Str} (h : ka ∈ createdSpecs p) :
    ka = (strLit "module-null-sink", nullSinkArgs) ∨
    ka = (strLit "module-ladspa-sink", ladspaArgs (planControls p) (strLit "splitter")) ∨
    ka = (strLit "module-remap-source", remapFrontArgs (strLit "splitter")) ∨
    ka = (strLit "module-remap-source", remapRLArgs p.upmix (strLit "splitter")) ∨
    ka = (strLit "module-remap-source", remapRRArgs p.upmix (strLit "splitter")) ∨
    ka = (strLit "module-loopback", loopbackArgs (strLit "front_channels") p.front) ∨
    ka = (strLit "module-loopback", loopbackArgs (strLit "rear_left_channel") p.rearL) ∨
    ka = (strLit "module-loopback", loopbackArgs (strLit "rear_right_channel") p.rearR) := by
  unfold createdSpecs at h
  by_cases hb : p.bypass <;> by_cases hf : p.front.isEmpty <;>
    by_cases hl : p.rearL.isEmpty <;> by_cases hr : p.rearR.isEmpty <;>
      simp [hb, hf, hl, hr] at h <;> tauto

end V2


/-- C3: `stop_pipeline` unloads in strict reverse-dependency order.  Starting
from any well-formed server where foreign modules match no teardown pattern
and the compressor's rendered control text does not smuggle in another kind's
reserved name, the unload calls issued by `stop_pipeline` after an
`apply_pipeline` decompose as four consecutive segments A ++ B ++ C ++ D:
every id in A names a loopback module, every id in B a remap channel source,
every id in C the LADSPA effect sink, and every id in D the splitter null
sink (the BaseSink), which is therefore unloaded last — in particular the
created splitter null sink's id lands in D. -/
theorem C3_stop_reverse_order (p : V2.Plan) (s : V2.PState) (hW : V2.WF s)
    (hforeign : ∀ m ∈ s.mods, ∀ g ∈ V2.teardownGroups, V2.modMatches g m = false)
    (hc1 : ¬ strLit "module-loopback" <:+:
      V2.modTail (strLit "module-ladspa-sink")
        (V2.ladspaArgs (V2.planControls p) (strLit "splitter")))
    (hc2 : ¬ strLit "module-remap-source" <:+:
      V2.modTail (strLit "module-ladspa-sink")
        (V2.ladspaArgs (V2.planControls p) (strLit "splitter"))) :
    ∃ A B C D : List Nat,
      V2.unloadsOf (V2.stop_pipeline_op (V2.apply_pipeline p s).1).2 = A ++ B ++ C ++ D ∧
      s.nextId ∈ D ∧
      (∀ i ∈ A, V2.kindAt (V2.apply_pipeline p s).1 i = some (strLit "module-loopback")) ∧
      (∀ i ∈ B, V2.kindAt (V2.apply_pipeline p s).1 i = some (strLit "module-remap-source")) ∧
      (∀ i ∈ C, V2.kindAt (V2.apply_pipeline p s).1 i = some (strLit "module-ladspa-sink")) ∧
      (∀ i ∈ D, V2.kindAt (V2.apply_pipeline p s).1 i = some (strLit "module-null-sink")) := by
  have hN1 : ((V2.apply_pipeline p s).1.mods.map V2.PMod.mid).Nodup := (V2.apply_WF p s hW).1
  have hmods1 : (V2.apply_pipeline p s).1.mods =
      s.mods.filter (fun m => V2.teardownGroups.all (fun g => ¬ V2.modMatches g m)) ++
        V2.assignIds s.nextId (V2.createdSpecs p) := by
    rw [V2.apply_state p s hW.1]
  generalize hgen : (V2.apply_pipeline p s).1 = s1 at hN1 hmods1 ⊢
  have hm2mods : (V2.sFold V2.loopGroups s1).mods =
      s1.mods.filter (fun m => V2.loopGroups.all (fun g => ¬ V2.modMatches g m)) := by
    rw [V2.sFold_state _ _ hN1]
  have hN2 : (((V2.sFold V2.loopGroups s1).mods.map V2.PMod.mid)).Nodup := by
    rw [hm2mods]
    exact V2.nodup_filter_mid hN1 _
  have hm3mods : (V2.sFold V2.remapGroups (V2.sFold V2.loopGroups s1)).mods =
      (V2.sFold V2.loopGroups s1).mods.filter
        (fun m => V2.remapGroups.all (fun g => ¬ V2.modMatches g m)) := by
    rw [V2.sFold_state _ _ hN2]
  have hN3 : (((V2.sFold V2.remapGroups (V2.sFold V2.loopGroups s1)).mods.map V2.PMod.mid)).Nodup := by
    rw [hm3mods]
    exact V2.nodup_filter_mid hN2 _
  have hm4mods :
      (V2.sFold [V2.ladspaGroup] (V2.sFold V2.remapGroups (V2.sFold V2.loopGroups s1))).mods =
      (V2.sFold V2.remapGroups (V2.sFold V2.loopGroups s1)).mods.filter
        (fun m => [V2.ladspaGroup].all (fun g => ¬ V2.modMatches g m)) := by
    rw [V2.sFold_state _ _ hN3]
  have hmem2 : ∀ m, m ∈ (V2.sFold V2.loopGroups s1).mods →
      m ∈ s1.mods ∧ V2.loopGroups.all (fun g => ¬ V2.modMatches g m) = true := by
    intro m hm
    rw [hm2mods] at hm
    exact ⟨(List.mem_filter.1 hm).1, (List.mem_filter.1 hm).2⟩
  have hmem3 : ∀ m, m ∈ (V2.sFold V2.remapGroups (V2.sFold V2.loopGroups s1)).mods →
      (m ∈ s1.mods ∧ V2.loopGroups.all (fun g => ¬ V2.modMatches g m) = true) ∧
        V2.remapGroups.all (fun g => ¬ V2.modMatches g m) = true := by
    intro m hm
    rw [hm3mods] at hm
    exact ⟨hmem2 m (List.mem_filter.1 hm).1, (List.mem_filter.1 hm).2⟩
  have hmem4 : ∀ m,
      m ∈ (V2.sFold [V2.ladspaGroup] (V2.sFold V2.remapGroups (V2.sFold V2.loopGroups s1))).mods →
      ((m ∈ s1.mods ∧ V2.loopGroups.all (fun g => ¬ V2.modMatches g m) = true) ∧
        V2.remapGroups.all (fun g => ¬ V2.modMatches g m) = true) ∧
        [V2.ladspaGroup].all (fun g => ¬ V2.modMatches g m) = true := by
    intro m hm
    rw [hm4mods] at hm
    exact ⟨hmem3 m (List.mem_filter.1 hm).1, (List.mem_filter.1 hm).2⟩
  have hcases : ∀ m ∈ s1.mods,
      (m ∈ s.mods) ∨ ∃ j : Nat,
        m = ⟨strLit "module-null-sink", V2.nullSinkArgs, j⟩ ∨
        m = ⟨strLit "module-ladspa-sink",
              V2.ladspaArgs (V2.planControls p) (strLit "splitter"), j⟩ ∨
        m = ⟨strLit "module-remap-source", V2.remapFrontArgs (strLit "splitter"), j⟩ ∨
        m = ⟨strLit "module-remap-source", V2.remapRLArgs p.upmix (strLit "splitter"), j⟩ ∨
        m = ⟨strLit "module-remap-source", V2.remapRRArgs p.upmix (strLit "splitter"), j⟩ ∨
        m = ⟨strLit "module-loopback", V2.loopbackArgs (strLit "front_channels") p.front, j⟩ ∨
        m = ⟨strLit "module-loopback", V2.loopbackArgs (strLit "rear_left_channel") p.rearL, j⟩ ∨
        m = ⟨strLit "module-loopback", V2.loopbackArgs (strLit "rear_right_channel") p.rearR, j⟩ := by
    intro m hm
    rw [hmods1] at hm
    rcases List.mem_append.1 hm with hm | hm
    · exact Or.inl (List.mem_of_mem_filter hm)
    · right
      obtain ⟨ka, hka, j, rfl⟩ := V2.mem_assignIds hm
      refine ⟨j, ?_⟩
      rcases V2.createdSpecs_cases hka with h|h|h|h|h|h|h|h <;> subst h <;> simp
  have hshapeL : ∀ g2 ∈ V2.loopGroups, strLit "module-loopback" ∈ g2 := by decide
  have hshapeR : ∀ g2 ∈ V2.remapGroups, strLit "module-remap-source" ∈ g2 := by decide
  have hclassA : ∀ m ∈ s1.mods, ∀ g ∈ V2.loopGroups, V2.modMatches g m = true →
      m.kind = strLit "module-loopback" := by
    intro m hm g hg hmatch
    have hcont : strContains (V2.blockText m) (strLit "module-loopback") = true := by
      have hmatch2 : g.all (fun q => strContains (V2.blockText m) q) = true := hmatch
      exact List.all_eq_true.1 hmatch2 _ (hshapeL g hg)
    rcases hcases m hm with hmF | ⟨j, hm8⟩
    · have hfg := hforeign m hmF g (List.take_subset 5 V2.teardownGroups hg)
      rw [hfg] at hmatch
      cases hmatch
    · rcases hm8 with rfl|rfl|rfl|rfl|rfl|rfl|rfl|rfl
      · rw [V2.null_no_loop j] at hcont
        cases hcont
      · rw [V2.ladspa_no_loop p j hc1] at hcont
        cases hcont
      · rw [V2.remapF_no_loop j] at hcont
        cases hcont
      · rw [V2.remapRL_no_loop p.upmix j] at hcont
        cases hcont
      · rw [V2.remapRR_no_loop p.upmix j] at hcont
        cases hcont
      · rfl
      · rfl
      · rfl
  have hclassB : ∀ m, m ∈ (V2.sFold V2.loopGroups s1).mods →
      ∀ g ∈ V2.remapGroups, V2.modMatches g m = true →
      m.kind = strLit "module-remap-source" := by
    intro m hm g hg hmatch
    obtain ⟨hm1, hsurv1⟩ := hmem2 m hm
    have hcont : strContains (V2.blockText m) (strLit "module-remap-source") = true := by
      have hmatch2 : g.all (fun q => strContains (V2.blockText m) q) = true := hmatch
      exact List.all_eq_true.1 hmatch2 _ (hshapeR g hg)
    have hgt : g ∈ V2.teardownGroups :=
      List.drop_subset 5 V2.teardownGroups (List.take_subset 5 (V2.teardownGroups.drop 5) hg)
    rcases hcases m hm1 with hmF | ⟨j, hm8⟩
    · have hfg := hforeign m hmF g hgt
      rw [hfg] at hmatch
      cases hmatch
    · rcases hm8 with rfl|rfl|rfl|rfl|rfl|rfl|rfl|rfl
      · rw [V2.null_no_remap j] at hcont
        cases hcont
      · rw [V2.ladspa_no_remap p j hc2] at hcont
        cases hcont
      · rfl
      · rfl
      · rfl
      · have hgl : [strLit "module-loopback", strLit "front_channels"] ∈ V2.loopGroups := by
          decide
        have hx := List.all_eq_true.1 hsurv1 _ hgl
        simp [V2.loopFMatches p.front j] at hx
      · have hgl : [strLit "module-loopback", strLit "rear_left_channel"] ∈ V2.loopGroups := by
          decide
        have hx := List.all_eq_true.1 hsurv1 _ hgl
        simp [V2.loopRLMatches p.rearL j] at hx
      · have hgl : [strLit "module-loopback", strLit "rear_right_channel"] ∈ V2.loopGroups := by
          decide
        have hx := List.all_eq_true.1 hsurv1 _ hgl
        simp [V2.loopRRMatches p.rearR j] at hx
  have hclassC : ∀ m, m ∈ (V2.sFold V2.remapGroups (V2.sFold V2.loopGroups s1)).mods →
      V2.modMatches V2.ladspaGroup m = true → m.kind = strLit "module-ladspa-sink" := by
    intro m hm hmatch
    obtain ⟨⟨hm1, hsurv1⟩, hsurv2⟩ := hmem3 m hm
    have hcont : strContains (V2.blockText m) (strLit "module-ladspa-sink") = true := by
      have hmatch2 : V2.ladspaGroup.all (fun q => strContains (V2.blockText m) q) = true := hmatch
      exact List.all_eq_true.1 hmatch2 _ (by decide)
    rcases hcases m hm1 with hmF | ⟨j, hm8⟩
    · have hfg := hforeign m hmF V2.ladspaGroup (by decide)
      rw [hfg] at hmatch
      cases hmatch
    · rcases hm8 with rfl|rfl|rfl|rfl|rfl|rfl|rfl|rfl
      · rw [V2.null_no_ladspa j] at hcont
        cases hcont
      · rfl
      · have hgr : [strLit "module-remap-source", strLit "front_channels"] ∈ V2.remapGroups := by
          decide
        have hx := List.all_eq_true.1 hsurv2 _ hgr
        simp [V2.remapFMatches j] at hx
      · have hgr : [strLit "module-remap-source", strLit "rear_left_channel"] ∈ V2.remapGroups := by
          decide
        have hx := List.all_eq_true.1 hsurv2 _ hgr
        simp [V2.remapRLMatches p.upmix j] at hx
      · have hgr : [strLit "module-remap-source", strLit "rear_right_channel"] ∈ V2.remapGroups := by
          decide
        have hx := List.all_eq_true.1 hsurv2 _ hgr
        simp [V2.remapRRMatches p.upmix j] at hx
      · have hgl : [strLit "module-loopback", strLit "front_channels"] ∈ V2.loopGroups := by
          decide
        have hx := List.all_eq_true.1 hsurv1 _ hgl
        simp [V2.loopFMatches p.front j] at hx
      · have hgl : [strLit "module-loopback", strLit "rear_left_channel"] ∈ V2.loopGroups := by
          decide
        have hx := List.all_eq_true.1 hsurv1 _ hgl
        simp [V2.loopRLMatches p.rearL j] at hx
      · have hgl : [strLit "module-loopback", strLit "rear_right_channel"] ∈ V2.loopGroups := by
          decide
        have hx := List.all_eq_true.1 hsurv1 _ hgl
        simp [V2.loopRRMatches p.rearR j] at hx
  have hclassD : ∀ m,
      m ∈ (V2.sFold [V2.ladspaGroup] (V2.sFold V2.remapGroups (V2.sFold V2.loopGroups s1))).mods →
      V2.modMatches V2.nullGroup m = true → m.kind = strLit "module-null-sink" := by
    intro m hm hmatch
    obtain ⟨⟨⟨hm1, hsurv1⟩, hsurv2⟩, hsurv3⟩ := hmem4 m hm
    rcases hcases m hm1 with hmF | ⟨j, hm8⟩
    · have hfg := hforeign m hmF V2.nullGroup (by decide)
      rw [hfg] at hmatch
      cases hmatch
    · rcases hm8 with rfl|rfl|rfl|rfl|rfl|rfl|rfl|rfl
      · rfl
      · have hx := List.all_eq_true.1 hsurv3 V2.ladspaGroup (by decide)
        simp [V2.ladspaGroup, V2.ladspaMatches (V2.planControls p) j] at hx
      · have hgr : [strLit "module-remap-source", strLit "front_channels"] ∈ V2.remapGroups := by
          decide
        have hx := List.all_eq_true.1 hsurv2 _ hgr
        simp [V2.remapFMatches j] at hx
      · have hgr : [strLit "module-remap-source", strLit "rear_left_channel"] ∈ V2.remapGroups := by
          decide
        have hx := List.all_eq_true.1 hsurv2 _ hgr
        simp [V2.remapRLMatches p.upmix j] at hx
      · have hgr : [strLit "module-remap-source", strLit "rear_right_channel"] ∈ V2.remapGroups := by
          decide
        have hx := List.all_eq_true.1 hsurv2 _ hgr
        simp [V2.remapRRMatches p.upmix j] at hx
      · have hgl : [strLit "module-loopback", strLit "front_channels"] ∈ V2.loopGroups := by
          decide
        have hx := List.all_eq_true.1 hsurv1 _ hgl
        simp [V2.loopFMatches p.front j] at hx
      · have hgl : [strLit "module-loopback", strLit "rear_left_channel"] ∈ V2.loopGroups := by
          decide
        have hx := List.all_eq_true.1 hsurv1 _ hgl
        simp [V2.loopRLMatches p.rearL j] at hx
      · have hgl : [strLit "module-loopback", strLit "rear_right_channel"] ∈ V2.loopGroups := by
          decide
        have hx := List.all_eq_true.1 hsurv1 _ hgl
        simp [V2.loopRRMatches p.rearR j] at hx
  have hnull1 : (⟨strLit "module-null-sink", V2.nullSinkArgs, s.nextId⟩ : V2.PMod) ∈ s1.mods := by
    rw [hmods1]
    apply List.mem_append_right
    exact List.mem_cons_self _ _
  have hsurvL : V2.loopGroups.all (fun g =>
      ¬ V2.modMatches g (⟨strLit "module-null-sink", V2.nullSinkArgs, s.nextId⟩ : V2.PMod)) = true := by
    rw [List.all_eq_true]
    intro g hg
    simp only [decide_eq_true_eq]
    intro hmatch
    have hmatch2 : g.all (fun q =>
        strContains (V2.blockText ⟨strLit "module-null-sink", V2.nullSinkArgs, s.nextId⟩) q) =
          true := hmatch
    have hx := List.all_eq_true.1 hmatch2 _ (hshapeL g hg)
    rw [V2.null_no_loop s.nextId] at hx
    cases hx
  have hsurvR : V2.remapGroups.all (fun g =>
      ¬ V2.modMatches g (⟨strLit "module-null-sink", V2.nullSinkArgs, s.nextId⟩ : V2.PMod)) = true := by
    rw [List.all_eq_true]
    intro g hg
    simp only [decide_eq_true_eq]
    intro hmatch
    have hmatch2 : g.all (fun q =>
        strContains (V2.blockText ⟨strLit "module-null-sink", V2.nullSinkArgs, s.nextId⟩) q) =
          true := hmatch
    have hx := List.all_eq_true.1 hmatch2 _ (hshapeR g hg)
    rw [V2.null_no_remap s.nextId] at hx
    cases hx
  have hladfalse : V2.modMatches V2.ladspaGroup
      (⟨strLit "module-null-sink", V2.nullSinkArgs, s.nextId⟩ : V2.PMod) = false :=
    V2.all_false_of_mem (strLit "module-ladspa-sink") (by decide) (V2.null_no_ladspa s.nextId)
  have hnullmem : (⟨strLit "module-null-sink", V2.nullSinkArgs, s.nextId⟩ : V2.PMod) ∈
      (V2.sFold [V2.ladspaGroup] (V2.sFold V2.remapGroups (V2.sFold V2.loopGroups s1))).mods := by
    rw [hm4mods]
    apply List.mem_filter.2
    refine ⟨?_, by simp [hladfalse]⟩
    rw [hm3mods]
    apply List.mem_filter.2
    refine ⟨?_, hsurvR⟩
    rw [hm2mods]
    exact List.mem_filter.2 ⟨hnull1, hsurvL⟩
  have hDmem : s.nextId ∈ V2.stopIds [V2.nullGroup]
      (V2.sFold [V2.ladspaGroup] (V2.sFold V2.remapGroups (V2.sFold V2.loopGroups s1))) := by
    rw [V2.stopIds, V2.stopIds, List.append_nil]
    apply List.mem_map.2
    refine ⟨⟨strLit "module-null-sink", V2.nullSinkArgs, s.nextId⟩, ?_, rfl⟩
    exact List.mem_filter.2 ⟨hnullmem, V2.nullMatches s.nextId⟩
  refine ⟨V2.stopIds V2.loopGroups s1,
      V2.stopIds V2.remapGroups (V2.sFold V2.loopGroups s1),
      V2.stopIds [V2.ladspaGroup] (V2.sFold V2.remapGroups (V2.sFold V2.loopGroups s1)),
      V2.stopIds [V2.nullGroup]
        (V2.sFold [V2.ladspaGroup] (V2.sFold V2.remapGroups (V2.sFold V2.loopGroups s1))),
      ?_, hDmem, ?_, ?_, ?_, ?_⟩
  · have htr : V2.unloadsOf (V2.stop_pipeline_op s1).2 = V2.stopIds V2.teardownGroups s1 := by
      unfold V2.stop_pipeline_op
      rw [V2.stopFold_unloads]
      simp [V2.unloadsOf]
    rw [htr, V2.teardownGroups_eq, V2.stopIds_append, V2.stopIds_append, V2.stopIds_append]
    simp [List.append_assoc]
  · intro i hi
    obtain ⟨m, hm, hmid, g, hg, hmatch⟩ := V2.mem_stopIds _ _ _ hi
    rw [← hmid, V2.kindAt_of_mem hN1 hm, hclassA m hm g hg hmatch]
  · intro i hi
    obtain ⟨m, hm, hmid, g, hg, hmatch⟩ := V2.mem_stopIds _ _ _ hi
    rw [← hmid, V2.kindAt_of_mem hN1 (hmem2 m hm).1, hclassB m hm g hg hmatch]
  · intro i hi
    obtain ⟨m, hm, hmid, g, hg, hmatch⟩ := V2.mem_stopIds _ _ _ hi
    have hgeq : g = V2.ladspaGroup := List.mem_singleton.1 hg
    subst hgeq
    rw [← hmid, V2.kindAt_of_mem hN1 ((hmem3 m hm).1).1, hclassC m hm hmatch]
  · intro i hi
    obtain ⟨m, hm, hmid, g, hg, hmatch⟩ := V2.mem_stopIds _ _ _ hi
    have hgeq : g = V2.nullGroup := List.mem_singleton.1 hg
    subst hgeq
    rw [← hmid, V2.kindAt_of_mem hN1 (((hmem4 m hm).1).1).1, hclassD m hm hmatch]

/-- Concrete inputs for the C3 witness: compressor enabled with digit-only
slider renderings, one front device, empty initial server. -/
def c3plan : V2.Plan :=
  ⟨"d".toList, [], [], "1".toList, "2".toList, "3".toList, "4".toList, "5".toList,
   "6".toList, false, false⟩

def c3state : V2.PState := ⟨0, [], 1, []⟩

theorem C3_stop_reverse_order_witness :
    V2.WF c3state ∧
    (∃ A B C D : List Nat,
      V2.unloadsOf (V2.stop_pipeline_op (V2.apply_pipeline c3plan c3state).1).2 =
        A ++ B ++ C ++ D ∧
      c3state.nextId ∈ D ∧
      (∀ i ∈ A, V2.kindAt (V2.apply_pipeline c3plan c3state).1 i =
        some (strLit "module-loopback")) ∧
      (∀ i ∈ B, V2.kindAt (V2.apply_pipeline c3plan c3state).1 i =
        some (strLit "module-remap-source")) ∧
      (∀ i ∈ C, V2.kindAt (V2.apply_pipeline c3plan c3state).1 i =
        some (strLit "module-ladspa-sink")) ∧
      (∀ i ∈ D, V2.kindAt (V2.apply_pipeline c3plan c3state).1 i =
        some (strLit "module-null-sink"))) :=
  ⟨⟨by decide, by decide⟩,
   C3_stop_reverse_order c3plan c3state ⟨by decide, by decide⟩ (by decide) (by decide)
     (by decide)⟩

namespace V1

/-- `all_existing` of v1 `apply_pipeline` (line 131): when the sink query
succeeds, the second whitespace-separated field of every non-empty output
line; `[]` on failure.  (The source indexes `line.split()[1]` directly, so a
non-empty line with fewer than two fields would raise; such lines carry no
name and are dropped here.) -/
def allExisting (code : Int) (out : Str) : List Str :=
  if code = 0 then
    ((pylines out).filter (fun l => ¬ l.isEmpty)).filterMap (fun l => (fieldsOf l).get? 1)
  else []

/-- The splitter reuse decision of v1 `apply_pipeline` (lines 134-144): the
chosen master sink name, and whether a new null sink had to be created. -/
def chooseSplitter (ex : List Str) : Str × Bool :=
  if strLit "splitter" ∈ ex then (strLit "splitter", false)
  else if strLit "null" ∈ ex then (strLit "null", false)
  else (strLit "splitter", true)

end V1

namespace V2

/-- v2's `apply_pipeline` issues the null-sink creation call on every run:
the reuse branch is unreachable because the filtered catalog never reports
the internal names. -/
theorem apply_creates_null (p : Plan) (s : PState) :
    ACmd.load (strLit "module-null-sink") nullSinkArgs ∈ (apply_pipeline p s).2 := by
  obtain ⟨hns, hnn⟩ := pactl_sinks_not_internal (stop_pipeline_op s).1.sinkCode
    (stop_pipeline_op s).1.sinkOut
  unfold apply_pipeline
  dsimp only
  rw [if_neg hns, if_neg hnn]
  cases hb : p.bypass <;> cases hf : p.front.isEmpty <;> cases hl : p.rearL.isEmpty <;>
    cases hr : p.rearR.isEmpty <;>
      simp [doLoad, hb, hf, hl, hr, List.isEmpty_nil]

end V2

/-- C6 counterexample: a server whose raw short-sink listing contains the
conventional name `splitter`.  v1's unfiltered `all_existing` sees it (and
would reuse it), but v2's filtered catalog drops it, so v2's apply still
issues the null-sink creation call instead of reusing the existing sink. -/
def c6state : V2.PState := ⟨0, [], 0, strLit "5\tsplitter\tx"⟩

theorem C6_counterexample :
    strLit "splitter" ∈ V1.allExisting 0 (strLit "5\tsplitter\tx") ∧
    V2.pactl_sinks 0 (strLit "5\tsplitter\tx") = [] ∧
    V2.ACmd.load (strLit "module-null-sink") V2.nullSinkArgs ∈
      (V2.apply_pipeline c1plan c6state).2 := by
  refine ⟨by decide, by decide, by decide⟩

/-- C6: BaseSink reuse policy, as implemented.  v1's `apply_pipeline`
implements the claimed policy over its unfiltered sink listing: reuse the
conventional `splitter` sink verbatim when present, else adopt a generic
`null` sink, else create a new one.  v2's `apply_pipeline`, however, draws
its candidates from `pactl_sinks`, which excludes the internal names
`splitter`/`compressor`/`null`, so both reuse branches are dead and v2
creates a fresh splitter null sink on every apply. -/
theorem C6_base_sink_reuse :
    (∀ ex : List Str,
      (strLit "splitter" ∈ ex → V1.chooseSplitter ex = (strLit "splitter", false)) ∧
      (strLit "splitter" ∉ ex → strLit "null" ∈ ex →
        V1.chooseSplitter ex = (strLit "null", false)) ∧
      (strLit "splitter" ∉ ex → strLit "null" ∉ ex →
        V1.chooseSplitter ex = (strLit "splitter", true))) ∧
    (∀ (code : Int) (out : Str),
      strLit "splitter" ∉ V2.pactl_sinks code out ∧ strLit "null" ∉ V2.pactl_sinks code out) ∧
    (∀ (p : V2.Plan) (s : V2.PState),
      V2.ACmd.load (strLit "module-null-sink") V2.nullSinkArgs ∈ (V2.apply_pipeline p s).2) := by
  refine ⟨?_, V2.pactl_sinks_not_internal, V2.apply_creates_null⟩
  intro ex
  refine ⟨?_, ?_, ?_⟩
  · intro h
    simp [V1.chooseSplitter, h]
  · intro h1 h2
    simp [V1.chooseSplitter, h1, h2]
  · intro h1 h2
    simp [V1.chooseSplitter, h1, h2]

theorem C6_base_sink_reuse_witness :
    (strLit "splitter" ∈ [strLit "splitter"] →
      V1.chooseSplitter [strLit "splitter"] = (strLit "splitter", false)) ∧
    V1.chooseSplitter [strLit "splitter"] = (strLit "splitter", false) :=
  ⟨(C6_base_sink_reuse.1 [strLit "splitter"]).1,
   (C6_base_sink_reuse.1 [strLit "splitter"]).1 (by decide)⟩
